import Mathlib

/-!
# Logitech G29 wheel wrapper: report decoding and command frames

A shallow embedding of `src/src/G29.cpp` (class `G29`).

* A `uint8_t` is a natural number; the conversion of an `int` to `uint8_t`
  is the explicit reduction `toUInt8` modulo `256`.
* A `std::vector<uint8_t>` is a `List Nat`; an indexed read `v[i]` is
  `v[i]?`, so a read at or beyond the length is the failure `none`
  (undefined behaviour in the source) and never a made-up byte.
* A `std::unordered_map<std::string, T>` is an association list with unique
  first matches: `m[k] = v` is `UMap.assign`, `m.find(k)` is `UMap.find`.
* The HID transport is the list of frames handed to `hid_write`, kept in the
  wrapper state as `written`.
-/

namespace G29Model

/-! ## `std::unordered_map<std::string, T>` -/

/-- The map type behind `state` and `buttonState`. -/
abbrev UMap (α : Type) := List (String × α)

namespace UMap

/-- The lookup `m.find(k)`: the value stored under `k`, if there is one. -/
def find {α : Type} : UMap α → String → Option α
  | [], _ => none
  | (k', v') :: rest, k => if k' = k then some v' else find rest k

/-- The assignment `m[k] = v`: overwrite the entry of `k`, or insert it. -/
def assign {α : Type} : UMap α → String → α → UMap α
  | [], k, v => [(k, v)]
  | (k', v') :: rest, k, v =>
    if k' = k then (k', v) :: rest else (k', v') :: assign rest k v

end UMap

/-! ## Machine integers -/

/-- Conversion of an `int` to `uint8_t`: reduction modulo `2^8`. -/
def toUInt8 (x : Int) : Nat := (x % 256).toNat

/-! ## Values of type `float` -/

/-- The values a C++ `float` can hold, as far as the comparisons `<` and `>`
see them: not-a-number, the two infinities, and the finite values (every
finite `float` is a rational number; negative zero is `finite 0`). -/
inductive F32 where
  | nan : F32
  | negInf : F32
  | posInf : F32
  | finite (q : ℚ) : F32
deriving DecidableEq

namespace F32

/-- The comparison `x < y` on `float`: exact on numbers, `false` as soon as an
operand is not-a-number. -/
def lt : F32 → F32 → Bool
  | finite a, finite b => decide (a < b)
  | negInf, finite _ => true
  | negInf, posInf => true
  | finite _, posInf => true
  | _, _ => false

/-- The comparison `x > y` on `float`, which is `y < x`. -/
def gt (x y : F32) : Bool := lt y x

/-- The value lies in the closed interval from `0` to `1`: it is a number `q`
with `0 ≤ q ≤ 1`. -/
def InUnit (x : F32) : Prop := ∃ q : ℚ, x = finite q ∧ 0 ≤ q ∧ q ≤ 1

end F32

/-! ## The scaling `static_cast<uint8_t>(std::round(x * 255.0f))` -/

/-- Rounding of a number to the nearest integer, a tie going to the even one
(the default IEEE-754 rounding of a significand). -/
def roundTiesEven (x : ℚ) : Int :=
  let f := ⌊x⌋
  if x - f < 1 / 2 then f
  else if 1 / 2 < x - f then f + 1
  else if f % 2 = 0 then f else f + 1

/-- The binary32 number nearest to `x`, ties to even: 24 bits of precision,
least exponent `-126` (below it the quantum stays `2^-149`), before any
overflow to infinity. -/
def roundBinary32 (x : ℚ) : ℚ :=
  if x = 0 then 0
  else
    let e := max (Int.log 2 |x|) (-126)
    let quantum : ℚ := 2 ^ (e - 23)
    roundTiesEven (x / quantum) * quantum

/-- The function `std::round` on a number: the nearest integer, a tie going
away from zero. -/
def roundHalfAway (x : ℚ) : Int :=
  if 0 ≤ x then ⌊x + 1 / 2⌋ else -⌊-x + 1 / 2⌋

namespace F32

/-- The `float` product `x * 255.0f`: the exact product rounded to binary32,
an infinity when the rounded magnitude reaches `2^128`. -/
def mul255 : F32 → F32
  | nan => nan
  | negInf => negInf
  | posInf => posInf
  | finite q =>
    let r := roundBinary32 (q * 255)
    if 2 ^ 128 ≤ r then posInf
    else if r ≤ -(2 ^ 128) then negInf
    else finite r

/-- The function `std::round` on a `float`. -/
def round : F32 → F32
  | finite q => finite (roundHalfAway q)
  | x => x

/-- The conversion `static_cast<uint8_t>(x)` of a `float`: the value truncated
toward zero when that lies in `0..255`; `none` when the conversion is
undefined (not-a-number, an infinity, a truncated value outside `0..255`). -/
def toUInt8? : F32 → Option Nat
  | finite q =>
    let t : Int := if 0 ≤ q then ⌊q⌋ else -⌊-q⌋
    if 0 ≤ t ∧ t ≤ 255 then some t.toNat else none
  | _ => none

end F32

/-- The expression `static_cast<uint8_t>(std::round(x * 255.0f))`; `none` when
the conversion to `uint8_t` is undefined. -/
def scaleToByte? (x : F32) : Option Nat :=
  F32.toUInt8? (F32.round (F32.mul255 x))

/-- The byte the scaling stores; where the conversion is undefined the source
fixes no value and this function answers `0`. -/
def scaleToByte (x : F32) : Nat := (scaleToByte? x).getD 0

/-! ## The wrapper state -/

/-- The data members of `class G29` (the device handle is represented by the
frames written to it). -/
structure G29 where
  /-- The member `cache`, the buffer `hid_read` fills. -/
  cache : List Nat
  /-- The member `state`, the analog inputs by name. -/
  state : UMap Nat
  /-- The member `buttonState`, the button flags by name. -/
  buttonState : UMap Bool
  /-- The frames passed to `hid_write`, oldest first. -/
  written : List (List Nat)
deriving DecidableEq, Repr

namespace G29

/-- The constructor `G29::G29()` once `hid_init` and `hid_open` succeeded:
`cache.resize(16, 0)` and the four axis entries set to `255`. -/
def new : G29 :=
  let state : UMap Nat := []
  let state := state.assign "steering" 255
  let state := state.assign "throttle" 255
  let state := state.assign "clutch" 255
  let state := state.assign "brake" 255
  { cache := List.replicate 16 0, state := state, buttonState := [], written := [] }

/-- The method `G29::calculateSteering(uint8_t start, uint8_t end)`; the
operands of `-` are promoted to `int` and the difference is stored in a
`uint8_t`. -/
def calculateSteering (start end_ : Nat) : Nat :=
  if start = 0 ∧ end_ = 0 then 255
  else
    if start > end_ then toUInt8 ((start : Int) - (end_ : Int))
    else toUInt8 ((end_ : Int) - (start : Int))

/-- First half of the body of `G29::updateButtonState` (source lines 139 to
164): the 20 assignments `buttonState[name] = (byte & mask) == value`, in
source order, on the bytes at offsets 0 to 3. -/
def buttonFlags (b0 b1 b2 b3 : Nat) (bs : UMap Bool) : UMap Bool :=
  let bs := bs.assign "X" (decide ((b0 &&& 0x18) = 0x18))
  let bs := bs.assign "Square" (decide ((b0 &&& 0x28) = 0x28))
  let bs := bs.assign "Triangle" (decide ((b0 &&& 0x88) = 0x88))
  let bs := bs.assign "Circle" (decide ((b0 &&& 0x48) = 0x48))
  let bs := bs.assign "L2" (decide ((b1 &&& 0x08) = 0x08))
  let bs := bs.assign "R2" (decide ((b1 &&& 0x04) = 0x04))
  let bs := bs.assign "L3" (decide ((b1 &&& 0x80) = 0x80))
  let bs := bs.assign "R3" (decide ((b1 &&& 0x40) = 0x40))
  let bs := bs.assign "DPadUp" (decide ((b0 &&& 0x0F) = 0x00))
  let bs := bs.assign "DPadDown" (decide ((b0 &&& 0x0F) = 0x04))
  let bs := bs.assign "DPadLeft" (decide ((b0 &&& 0x0F) = 0x06))
  let bs := bs.assign "DPadRight" (decide ((b0 &&& 0x0F) = 0x02))
  let bs := bs.assign "RotaryDialPress" (decide ((b3 &&& 0x08) = 0x08))
  let bs := bs.assign "PlusButton" (decide ((b2 &&& 0x80) = 0x80))
  let bs := bs.assign "MinusButton" (decide ((b3 &&& 0x01) = 0x01))
  let bs := bs.assign "LeftPaddle" (decide ((b1 &&& 0x02) = 0x02))
  let bs := bs.assign "RightPaddle" (decide ((b1 &&& 0x01) = 0x01))
  let bs := bs.assign "Share" (decide ((b1 &&& 0x10) = 0x10))
  let bs := bs.assign "Options" (decide ((b1 &&& 0x20) = 0x20))
  let bs := bs.assign "PS" (decide ((b3 &&& 0x10) = 0x10))
  bs

/-- Second half of the body of `G29::updateButtonState` (source lines 167 to
194): the chain of `if (byte == value) return name;` and the final
`return "";`, on the bytes at offsets 0 to 3. -/
def pressedLabel (b0 b1 b2 b3 : Nat) : String :=
  if b0 = 0x18 then "X"
  else if b0 = 0x28 then "Square"
  else if b0 = 0x88 then "Triangle"
  else if b0 = 0x48 then "Circle"
  else if b1 = 0x08 then "L2"
  else if b1 = 0x04 then "R2"
  else if b1 = 0x80 then "L3"
  else if b1 = 0x40 then "R3"
  else if b0 = 0x00 then "DPadUp"
  else if b0 = 0x04 then "DPadDown"
  else if b0 = 0x06 then "DPadLeft"
  else if b0 = 0x02 then "DPadRight"
  else if b3 = 0x08 then "RotaryDialPress"
  else if b2 = 0x80 then "PlusButton"
  else if b3 = 0x01 then "MinusButton"
  else if b1 = 0x02 then "LeftPaddle"
  else if b1 = 0x01 then "RightPaddle"
  else if b1 = 0x10 then "Share"
  else if b1 = 0x20 then "Options"
  else if b3 = 0x10 then "PS"
  else ""

/-- The method `G29::updateButtonState`: the returned label together with the
wrapper after the call. The result is `none` exactly when the method reads
`byteArray` at or beyond its length. After the length guard the method reads
the bytes at offsets 0 to 3, performs the assignments of `buttonFlags` and
returns the label of `pressedLabel`. -/
def updateButtonState (byteArray : List Nat) (s : G29) : Option (String × G29) :=
  if byteArray.length < 16 then some ("", s)
  else do
    let b0 ← byteArray[0]?
    let b1 ← byteArray[1]?
    let b2 ← byteArray[2]?
    let b3 ← byteArray[3]?
    pure (pressedLabel b0 b1 b2 b3,
      { s with buttonState := buttonFlags b0 b1 b2 b3 s.buttonState })

/-- The method `G29::updateState`; `none` exactly when it reads `byteArray` at
or beyond its length. The label of `updateButtonState` is discarded. -/
def updateState (byteArray : List Nat) (s : G29) : Option G29 :=
  if byteArray.length ≠ 16 then some s
  else do
    let b4 ← byteArray[4]?
    let b5 ← byteArray[5]?
    let st := s.state.assign "steering" (calculateSteering b4 b5)
    let b6 ← byteArray[6]?
    let st := st.assign "throttle" b6
    let b8 ← byteArray[8]?
    let st := st.assign "clutch" b8
    let b7 ← byteArray[7]?
    let st := st.assign "brake" b7
    let r ← updateButtonState byteArray { s with state := st }
    pure r.2

/-- The method `G29::getState`: a copy of the member `state`. -/
def getState (s : G29) : UMap Nat := s.state

/-- The method `G29::isButtonPressed`. -/
def isButtonPressed (button : String) (s : G29) : Bool :=
  match s.buttonState.find button with
  | some v => v
  | none => false

/-- The method `G29::getPressedButton`: it decodes the buttons of `cache`. -/
def getPressedButton (s : G29) : Option (String × G29) :=
  updateButtonState s.cache s

/-- The call `hid_write(device, msg, sizeof(msg))`: the frame is handed to the
transport. The return value of `hid_write` is ignored by every caller. -/
def hid_write (msg : List Nat) (s : G29) : G29 :=
  { s with written := s.written ++ [msg] }

/-- The method `G29::forceFeedbackConstant`. The outcome is the thrown
`std::out_of_range` message or normal return, together with the wrapper
afterwards. The float expression
`static_cast<uint8_t>(std::round(x * 255.0f))` is the parameter `scale`. -/
def forceFeedbackConstant (scale : F32 → Nat) (val : F32) (s : G29) :
    Except String Unit × G29 :=
  if F32.lt val (F32.finite 0) || F32.gt val (F32.finite 1) then
    (Except.error "Value must be in range of 0 to 1", s)
  else
    let val_scale := scale val
    let msg := [0x14, 0x00, val_scale, 0x00, 0x00, 0x00, 0x00]
    (Except.ok (), hid_write msg s)

/-- The method `G29::setAutocenter`, with the same conventions as
`forceFeedbackConstant`. -/
def setAutocenter (scale : F32 → Nat) (strength rate : F32) (s : G29) :
    Except String Unit × G29 :=
  if F32.lt strength (F32.finite 0) || F32.gt strength (F32.finite 1) then
    (Except.error "Strength must be in range of 0 to 1", s)
  else if F32.lt rate (F32.finite 0) || F32.gt rate (F32.finite 1) then
    (Except.error "Rate must be in range of 0 to 1", s)
  else
    let strength_scale := scale strength
    let rate_scale := scale rate
    let msg := [0x05, 0x00, strength_scale, rate_scale, 0x00, 0x00, 0x00]
    (Except.ok (), hid_write msg s)

end G29

/-! ## The label in the words of the specification -/

/-- The precedence order of the "first pressed button" label as the
specification lists it: byte offset, exact value, name. -/
def labelTable : List (Nat × Nat × String) :=
  [(0, 0x18, "X"), (0, 0x28, "Square"), (0, 0x88, "Triangle"), (0, 0x48, "Circle"),
   (1, 0x08, "L2"), (1, 0x04, "R2"), (1, 0x80, "L3"), (1, 0x40, "R3"),
   (0, 0x00, "DPadUp"), (0, 0x04, "DPadDown"), (0, 0x06, "DPadLeft"),
   (0, 0x02, "DPadRight"),
   (3, 0x08, "RotaryDialPress"), (2, 0x80, "PlusButton"), (3, 0x01, "MinusButton"),
   (1, 0x02, "LeftPaddle"), (1, 0x01, "RightPaddle"),
   (1, 0x10, "Share"), (1, 0x20, "Options"), (3, 0x10, "PS")]

/-- The label of the specification: the name of the first entry of
`labelTable` whose byte equals its value exactly, the empty string if there is
none. -/
def specLabel (raw : List Nat) : String :=
  ((labelTable.find? (fun t => decide (raw[t.1]? = some t.2.1))).map
    (fun t => t.2.2)).getD ""

/-- The 20 button names. -/
def buttonNames : List String :=
  ["X", "Square", "Triangle", "Circle", "L2", "R2", "L3", "R3",
   "DPadUp", "DPadDown", "DPadLeft", "DPadRight",
   "RotaryDialPress", "PlusButton", "MinusButton", "LeftPaddle", "RightPaddle",
   "Share", "Options", "PS"]

/-- The four axis names. -/
def axisNames : List String := ["steering", "throttle", "brake", "clutch"]

/-! ## The transport and the polling operations -/

/-- Conversion of an `int` to `size_t` (64 bits): reduction modulo `2^64`. -/
def toSizeT (x : Int) : Nat := (x % 2 ^ 64).toNat

/-- One call `hid_read(device, cache.data(), cache.size())` as the transport
answers it: the returned `int` (negative on failure, `0` without data) and the
bytes it stored from the start of the buffer on. -/
structure HidRead where
  /-- The value `hid_read` returns. -/
  ret : Int
  /-- The bytes `hid_read` stored into the buffer. -/
  data : List Nat
deriving DecidableEq, Repr

/-- One iteration of the loop of `pump` as the environment decides it: the
whole seconds the clock shows since `start` when the loop condition is tested,
and the answer of `hid_read` should the body run. -/
structure Poll where
  /-- The value of `duration_cast<seconds>(now() - start).count()`. -/
  elapsed : Int
  /-- The answer of the `hid_read` of this iteration. -/
  read : HidRead
deriving DecidableEq, Repr

namespace G29

/-- The buffer `cache` after `hid_read` stored `r.data` into it: the vector
keeps its size. -/
def storeRead (r : HidRead) (cache : List Nat) : List Nat :=
  (r.data ++ cache.drop r.data.length).take cache.length

/-- The loop of `G29::pump`, with the current value of `bytes_read`. A list of
polls that ends stands for the time budget having expired. -/
def pumpLoop (timeout : Int) : List Poll → Nat → G29 → Nat × G29
  | [], bytes_read, s => (bytes_read, s)
  | p :: rest, bytes_read, s =>
    if p.elapsed < timeout then
      let s' : G29 := { s with cache := storeRead p.read s.cache }
      let bytes_read' := toSizeT p.read.ret
      if bytes_read' > 0 then (bytes_read', s')
      else pumpLoop timeout rest bytes_read' s'
    else (bytes_read, s)

/-- The method `G29::pump(int timeout)`: the returned `size_t` and the wrapper
afterwards. -/
def pump (timeout : Int) (polls : List Poll) (s : G29) : Nat × G29 :=
  pumpLoop timeout polls 0 s

/-- The method `G29::connect`: `pump(10)`, the result discarded. -/
def connect (polls : List Poll) (s : G29) : G29 :=
  (pump 10 polls s).2

/-- The method `G29::readLoop`; `none` exactly when the decode reads past the
end of the cache. -/
def readLoop (polls : List Poll) (s : G29) : Option G29 :=
  let r := pump 1 polls s
  if r.1 > 0 then updateState r.2.cache r.2
  else some r.2

/-- The method `G29::reset` (the closing sleep has no effect on the state). -/
def reset (s : G29) : G29 :=
  let msg1 := [0xf8, 0x0a, 0x00, 0x00, 0x00, 0x00, 0x00]
  let msg2 := [0xf8, 0x09, 0x05, 0x01, 0x01, 0x00, 0x00]
  hid_write msg2 (hid_write msg1 s)

/-- The method `G29::forceOff`. -/
def forceOff (s : G29) : G29 :=
  let msg := [0x10, 0x00, 0x00, 0x00, 0x00, 0x00, 0x00]
  hid_write msg s

end G29

/-! ## Sequences of operations -/

/-- A call on the wrapper: the public methods of `class G29` with their
arguments and the answers of the environment, and the two decode methods
called directly on a byte array, as the tests do. -/
inductive Op where
  | connect (polls : List Poll)
  | reset
  | forceFeedbackConstant (val : F32)
  | setAutocenter (strength rate : F32)
  | forceOff
  | pump (timeout : Int) (polls : List Poll)
  | readLoop (polls : List Poll)
  | getState
  | isButtonPressed (button : String)
  | getPressedButton
  | updateState (raw : List Nat)
  | updateButtonState (raw : List Nat)

/-- The operation is one of the public methods. -/
def Op.isPublic : Op → Bool
  | Op.updateState _ => false
  | Op.updateButtonState _ => false
  | _ => true

/-- The wrapper after a call (after a throw the wrapper is the one the method
left behind); `none` when the call reads past the end of a byte array. -/
def step (scale : F32 → Nat) : Op → G29 → Option G29
  | Op.connect polls, s => some (G29.connect polls s)
  | Op.reset, s => some (G29.reset s)
  | Op.forceFeedbackConstant val, s => some (G29.forceFeedbackConstant scale val s).2
  | Op.setAutocenter strength rate, s => some (G29.setAutocenter scale strength rate s).2
  | Op.forceOff, s => some (G29.forceOff s)
  | Op.pump timeout polls, s => some (G29.pump timeout polls s).2
  | Op.readLoop polls, s => G29.readLoop polls s
  | Op.getState, s => some s
  | Op.isButtonPressed _, s => some s
  | Op.getPressedButton, s => (G29.getPressedButton s).map Prod.snd
  | Op.updateState raw, s => G29.updateState raw s
  | Op.updateButtonState raw, s => (G29.updateButtonState raw s).map Prod.snd

/-- The wrapper after a sequence of calls. -/
def run (scale : F32 → Nat) : List Op → G29 → Option G29
  | [], s => some s
  | op :: ops, s => (step scale op s).bind (run scale ops)

/-- The operation hands the wrapper bytes only: every value `hid_read` stores
into the cache is below 256. -/
def Op.bytesOk : Op → Bool
  | Op.connect polls => polls.all (fun p => p.read.data.all (fun b => decide (b < 256)))
  | Op.pump _ polls => polls.all (fun p => p.read.data.all (fun b => decide (b < 256)))
  | Op.readLoop polls => polls.all (fun p => p.read.data.all (fun b => decide (b < 256)))
  | _ => true

/-! ## The decode in the words of the specification -/

/-- The function `computeSteering` of the specification: the sentinel 255 when
both bytes are 0, otherwise the larger byte minus the smaller. -/
def specSteering (a b : Nat) : Nat :=
  if a = 0 ∧ b = 0 then 255 else max a b - min a b

/-- The button table of the specification: name, byte offset, mask and value
of the test `raw[offset] & mask == value`. -/
def specButtonTable : List (String × Nat × Nat × Nat) :=
  [("X", 0, 0x18, 0x18), ("Square", 0, 0x28, 0x28), ("Triangle", 0, 0x88, 0x88),
   ("Circle", 0, 0x48, 0x48),
   ("L2", 1, 0x08, 0x08), ("R2", 1, 0x04, 0x04), ("L3", 1, 0x80, 0x80),
   ("R3", 1, 0x40, 0x40),
   ("DPadUp", 0, 0x0F, 0x00), ("DPadDown", 0, 0x0F, 0x04), ("DPadLeft", 0, 0x0F, 0x06),
   ("DPadRight", 0, 0x0F, 0x02),
   ("RotaryDialPress", 3, 0x08, 0x08), ("PlusButton", 2, 0x80, 0x80),
   ("MinusButton", 3, 0x01, 0x01),
   ("LeftPaddle", 1, 0x02, 0x02), ("RightPaddle", 1, 0x01, 0x01),
   ("Share", 1, 0x10, 0x10), ("Options", 1, 0x20, 0x20), ("PS", 3, 0x10, 0x10)]

/-- The flag the specification gives the button of a table row on a report. -/
def specFlag (raw : List Nat) (row : String × Nat × Nat × Nat) : Bool :=
  match raw[row.2.1]? with
  | some b => decide ((b &&& row.2.2.1) = row.2.2.2)
  | none => false

/-- The axis values and the button flags of `s` are the decode of the report
`raw` as the specification describes it: `raw` has 16 bytes, steering is
`computeSteering(raw[4], raw[5])`, throttle, brake and clutch are `raw[6]`,
`raw[7]` and `raw[8]`, and each of the 20 buttons answers its table test. -/
def DecodeOf (raw : List Nat) (s : G29) : Prop :=
  raw.length = 16 ∧
  (∃ b4 b5, raw[4]? = some b4 ∧ raw[5]? = some b5 ∧
    UMap.find (G29.getState s) "steering" = some (specSteering b4 b5)) ∧
  UMap.find (G29.getState s) "throttle" = raw[6]? ∧
  UMap.find (G29.getState s) "brake" = raw[7]? ∧
  UMap.find (G29.getState s) "clutch" = raw[8]? ∧
  ∀ row ∈ specButtonTable, G29.isButtonPressed row.1 s = specFlag raw row

/-- The axis values and the button flags of `s` are both the decode of the 16
bytes in its cache. -/
def BothFromCache (s : G29) : Prop := DecodeOf s.cache s

/-- A call that took `s` to `s'` updated axes and buttons together: either it
left both maps as they were, or both are now the decode of the bytes in the
cache. -/
def StepTogether (s s' : G29) : Prop :=
  (s'.state = s.state ∧ s'.buttonState = s.buttonState) ∨ BothFromCache s'

/-! ## Auxiliary lemmas -/

theorem UMap.find_assign {α : Type} (m : UMap α) (k : String) (v : α) (k' : String) :
    UMap.find (UMap.assign m k v) k' = if k = k' then some v else UMap.find m k' := by
  induction m with
  | nil => simp [UMap.assign, UMap.find]
  | cons p rest ih =>
    obtain ⟨k0, v0⟩ := p
    by_cases h0 : k0 = k
    · subst h0
      by_cases h1 : k0 = k' <;> simp [UMap.assign, UMap.find, h1]
    · by_cases h1 : k0 = k'
      · subst h1
        simp [UMap.assign, UMap.find, h0, Ne.symm h0]
      · simp [UMap.assign, UMap.find, h0, h1, ih]

theorem bytes_of_length_16 (raw : List Nat) (h : raw.length = 16) :
    ∃ b0 b1 b2 b3 b4 b5 b6 b7 b8 b9 b10 b11 b12 b13 b14 b15 : Nat,
      raw = [b0, b1, b2, b3, b4, b5, b6, b7, b8, b9, b10, b11, b12, b13, b14, b15] := by
  match raw, h with
  | [b0, b1, b2, b3, b4, b5, b6, b7, b8, b9, b10, b11, b12, b13, b14, b15], _ =>
    exact ⟨b0, b1, b2, b3, b4, b5, b6, b7, b8, b9, b10, b11, b12, b13, b14, b15, rfl⟩

/-- On a report of 16 bytes the button decode succeeds: the label is
`pressedLabel` and the flags are `buttonFlags` of the bytes at offsets 0 to 3. -/
theorem updateButtonState_bytes
    (b0 b1 b2 b3 b4 b5 b6 b7 b8 b9 b10 b11 b12 b13 b14 b15 : Nat) (s : G29) :
    G29.updateButtonState
        [b0, b1, b2, b3, b4, b5, b6, b7, b8, b9, b10, b11, b12, b13, b14, b15] s =
      some (G29.pressedLabel b0 b1 b2 b3,
        { s with buttonState := G29.buttonFlags b0 b1 b2 b3 s.buttonState }) := by
  simp [G29.updateButtonState]

/-- On a report of 16 bytes the full decode succeeds. -/
theorem updateState_bytes
    (b0 b1 b2 b3 b4 b5 b6 b7 b8 b9 b10 b11 b12 b13 b14 b15 : Nat) (s : G29) :
    G29.updateState
        [b0, b1, b2, b3, b4, b5, b6, b7, b8, b9, b10, b11, b12, b13, b14, b15] s =
      some { s with
        state := (((s.state.assign "steering" (G29.calculateSteering b4 b5)).assign
          "throttle" b6).assign "clutch" b8).assign "brake" b7
        buttonState := G29.buttonFlags b0 b1 b2 b3 s.buttonState } := by
  simp [G29.updateState, G29.updateButtonState]

/-- The decoded flag map answers every one of the 20 names with its masked
test, whatever the map held before. -/
theorem isButtonPressed_buttonFlags (b0 b1 b2 b3 : Nat) (s : G29) :
    G29.isButtonPressed "X" { s with buttonState := G29.buttonFlags b0 b1 b2 b3 s.buttonState } =
      decide ((b0 &&& 0x18) = 0x18) ∧
    G29.isButtonPressed "Square" { s with buttonState := G29.buttonFlags b0 b1 b2 b3 s.buttonState } =
      decide ((b0 &&& 0x28) = 0x28) ∧
    G29.isButtonPressed "Triangle" { s with buttonState := G29.buttonFlags b0 b1 b2 b3 s.buttonState } =
      decide ((b0 &&& 0x88) = 0x88) ∧
    G29.isButtonPressed "Circle" { s with buttonState := G29.buttonFlags b0 b1 b2 b3 s.buttonState } =
      decide ((b0 &&& 0x48) = 0x48) ∧
    G29.isButtonPressed "L2" { s with buttonState := G29.buttonFlags b0 b1 b2 b3 s.buttonState } =
      decide ((b1 &&& 0x08) = 0x08) ∧
    G29.isButtonPressed "R2" { s with buttonState := G29.buttonFlags b0 b1 b2 b3 s.buttonState } =
      decide ((b1 &&& 0x04) = 0x04) ∧
    G29.isButtonPressed "L3" { s with buttonState := G29.buttonFlags b0 b1 b2 b3 s.buttonState } =
      decide ((b1 &&& 0x80) = 0x80) ∧
    G29.isButtonPressed "R3" { s with buttonState := G29.buttonFlags b0 b1 b2 b3 s.buttonState } =
      decide ((b1 &&& 0x40) = 0x40) ∧
    G29.isButtonPressed "DPadUp" { s with buttonState := G29.buttonFlags b0 b1 b2 b3 s.buttonState } =
      decide ((b0 &&& 0x0F) = 0x00) ∧
    G29.isButtonPressed "DPadDown" { s with buttonState := G29.buttonFlags b0 b1 b2 b3 s.buttonState } =
      decide ((b0 &&& 0x0F) = 0x04) ∧
    G29.isButtonPressed "DPadLeft" { s with buttonState := G29.buttonFlags b0 b1 b2 b3 s.buttonState } =
      decide ((b0 &&& 0x0F) = 0x06) ∧
    G29.isButtonPressed "DPadRight" { s with buttonState := G29.buttonFlags b0 b1 b2 b3 s.buttonState } =
      decide ((b0 &&& 0x0F) = 0x02) ∧
    G29.isButtonPressed "RotaryDialPress" { s with buttonState := G29.buttonFlags b0 b1 b2 b3 s.buttonState } =
      decide ((b3 &&& 0x08) = 0x08) ∧
    G29.isButtonPressed "PlusButton" { s with buttonState := G29.buttonFlags b0 b1 b2 b3 s.buttonState } =
      decide ((b2 &&& 0x80) = 0x80) ∧
    G29.isButtonPressed "MinusButton" { s with buttonState := G29.buttonFlags b0 b1 b2 b3 s.buttonState } =
      decide ((b3 &&& 0x01) = 0x01) ∧
    G29.isButtonPressed "LeftPaddle" { s with buttonState := G29.buttonFlags b0 b1 b2 b3 s.buttonState } =
      decide ((b1 &&& 0x02) = 0x02) ∧
    G29.isButtonPressed "RightPaddle" { s with buttonState := G29.buttonFlags b0 b1 b2 b3 s.buttonState } =
      decide ((b1 &&& 0x01) = 0x01) ∧
    G29.isButtonPressed "Share" { s with buttonState := G29.buttonFlags b0 b1 b2 b3 s.buttonState } =
      decide ((b1 &&& 0x10) = 0x10) ∧
    G29.isButtonPressed "Options" { s with buttonState := G29.buttonFlags b0 b1 b2 b3 s.buttonState } =
      decide ((b1 &&& 0x20) = 0x20) ∧
    G29.isButtonPressed "PS" { s with buttonState := G29.buttonFlags b0 b1 b2 b3 s.buttonState } =
      decide ((b3 &&& 0x10) = 0x10) := by
  simp [G29.isButtonPressed, G29.buttonFlags, UMap.find_assign]

/-- The state the constructor builds holds exactly the four axis names. -/
theorem new_state_keys (k : String) :
    (UMap.find (G29.getState G29.new) k).isSome = true ↔ k ∈ axisNames := by
  simp only [G29.getState, G29.new, UMap.find_assign, axisNames, UMap.find]
  constructor
  · intro h
    split_ifs at h <;> simp_all
  · intro h
    simp only [List.mem_cons, List.mem_singleton, List.not_mem_nil, or_false] at h
    rcases h with h | h | h | h <;> subst h <;> simp

theorem find?_cons_ite {α : Type} (p : α → Bool) (a : α) (l : List α) :
    (a :: l).find? p = if p a = true then some a else l.find? p := by
  cases h : p a <;> simp [List.find?, h]

theorem ite_label_step {α : Type} (c : Prop) [Decidable c] (f : α → String) (t : α)
    (n x : String) (y : Option α) (ht : f t = n) (h : x = (y.map f).getD "") :
    (if c then n else x) = ((if c then some t else y).map f).getD "" := by
  by_cases hc : c <;> simp [hc, ht, h]

/-- The label computed by the source chain of exact comparisons is the label
of the specification table. -/
theorem pressedLabel_eq_specLabel
    (b0 b1 b2 b3 b4 b5 b6 b7 b8 b9 b10 b11 b12 b13 b14 b15 : Nat) :
    G29.pressedLabel b0 b1 b2 b3 =
      specLabel [b0, b1, b2, b3, b4, b5, b6, b7, b8, b9, b10, b11, b12, b13, b14, b15] := by
  simp only [G29.pressedLabel, specLabel, labelTable, find?_cons_ite, List.find?_nil,
    List.getElem?_cons_zero, List.getElem?_cons_succ, Option.some.injEq, decide_eq_true_eq]
  repeat (refine ite_label_step _ _ _ _ _ _ rfl ?_)
  rfl

/-- On a number `q` the validation of `forceFeedbackConstant` throws exactly
when `q < 0` or `q > 1`: a throwing call leaves the wrapper, its written frames
included, as it was, and an accepted call writes the single frame. -/
theorem forceFeedbackConstant_finite (scale : F32 → Nat) (q : ℚ) (s : G29) :
    ((q < 0 ∨ 1 < q) →
      G29.forceFeedbackConstant scale (F32.finite q) s =
        (Except.error "Value must be in range of 0 to 1", s)) ∧
    ((0 ≤ q ∧ q ≤ 1) →
      G29.forceFeedbackConstant scale (F32.finite q) s =
        (Except.ok (),
          G29.hid_write [0x14, 0x00, scale (F32.finite q), 0x00, 0x00, 0x00, 0x00] s)) := by
  constructor
  · intro h
    have hc : (F32.lt (F32.finite q) (F32.finite 0) || F32.gt (F32.finite q) (F32.finite 1))
        = true := by
      simpa [F32.lt, F32.gt] using h
    simp [G29.forceFeedbackConstant, hc]
  · intro h
    have hc : (F32.lt (F32.finite q) (F32.finite 0) || F32.gt (F32.finite q) (F32.finite 1))
        = false := by
      simpa [F32.lt, F32.gt] using h
    simp [G29.forceFeedbackConstant, hc]

/-- On numbers the validation of `setAutocenter` throws exactly when one of
them is outside the closed interval from 0 to 1, naming `Strength` when the
strength is outside and `Rate` when only the rate is; a throwing call leaves
the wrapper as it was, and an accepted call writes the single frame. -/
theorem setAutocenter_finite (scale : F32 → Nat) (p q : ℚ) (s : G29) :
    ((p < 0 ∨ 1 < p) →
      G29.setAutocenter scale (F32.finite p) (F32.finite q) s =
        (Except.error "Strength must be in range of 0 to 1", s)) ∧
    ((0 ≤ p ∧ p ≤ 1) → (q < 0 ∨ 1 < q) →
      G29.setAutocenter scale (F32.finite p) (F32.finite q) s =
        (Except.error "Rate must be in range of 0 to 1", s)) ∧
    ((0 ≤ p ∧ p ≤ 1) → (0 ≤ q ∧ q ≤ 1) →
      G29.setAutocenter scale (F32.finite p) (F32.finite q) s =
        (Except.ok (),
          G29.hid_write [0x05, 0x00, scale (F32.finite p), scale (F32.finite q),
            0x00, 0x00, 0x00] s)) := by
  have key : ∀ r : ℚ,
      ((r < 0 ∨ 1 < r) →
        (F32.lt (F32.finite r) (F32.finite 0) || F32.gt (F32.finite r) (F32.finite 1))
          = true) ∧
      ((0 ≤ r ∧ r ≤ 1) →
        (F32.lt (F32.finite r) (F32.finite 0) || F32.gt (F32.finite r) (F32.finite 1))
          = false) := by
    intro r
    constructor
    · intro h
      simpa [F32.lt, F32.gt] using h
    · intro h
      simpa [F32.lt, F32.gt] using h
  refine ⟨?_, ?_, ?_⟩
  · intro hp
    simp [G29.setAutocenter, (key p).1 hp]
  · intro hp hq
    simp [G29.setAutocenter, (key p).2 hp, (key q).1 hq]
  · intro hp hq
    simp [G29.setAutocenter, (key p).2 hp, (key q).2 hq]

/-! ## Theorems -/

/-- C1: for all bytes `a`, `b`, `calculateSteering a b` is `255` when both are
zero and otherwise the absolute difference `|a - b|` (larger minus smaller, no
wraparound); the function is symmetric in its arguments. -/
theorem calculateSteering_spec (a b : Nat) (ha : a < 256) (hb : b < 256) :
    (a = 0 ∧ b = 0 → G29.calculateSteering a b = 255) ∧
    (¬ (a = 0 ∧ b = 0) →
      G29.calculateSteering a b = max a b - min a b ∧
      (G29.calculateSteering a b : Int) = |(a : Int) - (b : Int)|) ∧
    G29.calculateSteering a b = G29.calculateSteering b a := by
  unfold G29.calculateSteering toUInt8
  refine ⟨?_, ?_, ?_⟩
  · intro h
    simp [h]
  · intro h
    rw [if_neg h]
    constructor
    · split_ifs <;> omega
    · rcases abs_cases ((a : Int) - (b : Int)) with ⟨he, _⟩ | ⟨he, _⟩ <;>
        rw [he] <;> split_ifs <;> omega
  · split_ifs <;> omega

/-- Witness of C1 at the bytes 200 and 13. -/
theorem calculateSteering_spec_witness :
    (200 < 256 ∧ 13 < 256) ∧
    (200 = 0 ∧ 13 = 0 → G29.calculateSteering 200 13 = 255) ∧
    (¬ (200 = 0 ∧ 13 = 0) →
      G29.calculateSteering 200 13 = max 200 13 - min 200 13 ∧
      (G29.calculateSteering 200 13 : Int) = |((200 : Nat) : Int) - ((13 : Nat) : Int)|) ∧
    G29.calculateSteering 200 13 = G29.calculateSteering 13 200 :=
  ⟨⟨by decide, by decide⟩, calculateSteering_spec 200 13 (by decide) (by decide)⟩

/-- C2: when the byte array does not have exactly 16 elements, `updateState`
completes without failure and returns the wrapper it was given: the four axis
values and every button flag are the ones from before the call. -/
theorem updateState_wrong_length_unchanged (raw : List Nat) (s : G29)
    (h : raw.length ≠ 16) :
    ∃ s', G29.updateState raw s = some s' ∧ s' = s ∧
      (∀ k, UMap.find (G29.getState s') k = UMap.find (G29.getState s) k) ∧
      (∀ name, G29.isButtonPressed name s' = G29.isButtonPressed name s) := by
  refine ⟨s, ?_, rfl, fun _ => rfl, fun _ => rfl⟩
  simp [G29.updateState, h]

/-- Witness of C2 on a 15-byte array and on the constructed wrapper. -/
theorem updateState_wrong_length_unchanged_witness :
    (List.replicate 15 7).length ≠ 16 ∧
    ∃ s', G29.updateState (List.replicate 15 7) G29.new = some s' ∧ s' = G29.new ∧
      (∀ k, UMap.find (G29.getState s') k = UMap.find (G29.getState G29.new) k) ∧
      (∀ name, G29.isButtonPressed name s' = G29.isButtonPressed name G29.new) :=
  ⟨by decide, updateState_wrong_length_unchanged (List.replicate 15 7) G29.new (by decide)⟩

/-- C3: after `updateState` on a 16-byte report, `getState` has
`throttle = raw[6]`, `brake = raw[7]`, `clutch = raw[8]` and
`steering = calculateSteering raw[4] raw[5]`; if the state held exactly the
four axis names before (as it does from construction on), it holds exactly
these four names afterwards. -/
theorem updateState_axes (raw : List Nat) (s : G29) (h : raw.length = 16)
    (hkeys : ∀ k, (UMap.find (G29.getState s) k).isSome = true ↔ k ∈ axisNames) :
    ∃ s' b4 b5 b6 b7 b8, G29.updateState raw s = some s' ∧
      raw[4]? = some b4 ∧ raw[5]? = some b5 ∧ raw[6]? = some b6 ∧
      raw[7]? = some b7 ∧ raw[8]? = some b8 ∧
      UMap.find (G29.getState s') "throttle" = some b6 ∧
      UMap.find (G29.getState s') "brake" = some b7 ∧
      UMap.find (G29.getState s') "clutch" = some b8 ∧
      UMap.find (G29.getState s') "steering" = some (G29.calculateSteering b4 b5) ∧
      (∀ k, (UMap.find (G29.getState s') k).isSome = true ↔ k ∈ axisNames) := by
  obtain ⟨b0, b1, b2, b3, b4, b5, b6, b7, b8, b9, b10, b11, b12, b13, b14, b15, rfl⟩ :=
    bytes_of_length_16 raw h
  refine ⟨_, b4, b5, b6, b7, b8, updateState_bytes _ _ _ _ _ _ _ _ _ _ _ _ _ _ _ _ s,
    rfl, rfl, rfl, rfl, rfl, ?_, ?_, ?_, ?_, ?_⟩
  · simp [G29.getState, UMap.find_assign]
  · simp [G29.getState, UMap.find_assign]
  · simp [G29.getState, UMap.find_assign]
  · simp [G29.getState, UMap.find_assign]
  · intro k
    have hk := hkeys k
    simp only [G29.getState, UMap.find_assign] at hk ⊢
    by_cases hmem : k ∈ axisNames
    · simp only [hmem, iff_true] at hk ⊢
      split_ifs <;> simp [hk]
    · simp only [hmem, iff_false] at hk ⊢
      have h1 : ¬ "steering" = k := fun e => hmem (by simp [axisNames, ← e])
      have h2 : ¬ "throttle" = k := fun e => hmem (by simp [axisNames, ← e])
      have h3 : ¬ "clutch" = k := fun e => hmem (by simp [axisNames, ← e])
      have h4 : ¬ "brake" = k := fun e => hmem (by simp [axisNames, ← e])
      simp only [h1, h2, h3, h4, if_false]
      exact hk

/-- Witness of C3 on the report `0, 1, ..., 15` and the constructed wrapper. -/
theorem updateState_axes_witness :
    ∃ s' b4 b5 b6 b7 b8, G29.updateState (List.range 16) G29.new = some s' ∧
      (List.range 16)[4]? = some b4 ∧ (List.range 16)[5]? = some b5 ∧
      (List.range 16)[6]? = some b6 ∧
      (List.range 16)[7]? = some b7 ∧ (List.range 16)[8]? = some b8 ∧
      UMap.find (G29.getState s') "throttle" = some b6 ∧
      UMap.find (G29.getState s') "brake" = some b7 ∧
      UMap.find (G29.getState s') "clutch" = some b8 ∧
      UMap.find (G29.getState s') "steering" = some (G29.calculateSteering b4 b5) ∧
      (∀ k, (UMap.find (G29.getState s') k).isSome = true ↔ k ∈ axisNames) :=
  updateState_axes (List.range 16) G29.new (by decide) new_state_keys

/-- C4: after the button decode of a 16-byte report, `isButtonPressed` answers
each of the 20 names with the masked test of the table on the bytes at offsets
0 to 3, whatever the flags were before the call. -/
theorem updateButtonState_flags (raw : List Nat) (s : G29) (h : raw.length = 16) :
    ∃ lbl s' b0 b1 b2 b3, G29.updateButtonState raw s = some (lbl, s') ∧
      raw[0]? = some b0 ∧ raw[1]? = some b1 ∧ raw[2]? = some b2 ∧ raw[3]? = some b3 ∧
      G29.isButtonPressed "X" s' = decide ((b0 &&& 0x18) = 0x18) ∧
      G29.isButtonPressed "Square" s' = decide ((b0 &&& 0x28) = 0x28) ∧
      G29.isButtonPressed "Triangle" s' = decide ((b0 &&& 0x88) = 0x88) ∧
      G29.isButtonPressed "Circle" s' = decide ((b0 &&& 0x48) = 0x48) ∧
      G29.isButtonPressed "L2" s' = decide ((b1 &&& 0x08) = 0x08) ∧
      G29.isButtonPressed "R2" s' = decide ((b1 &&& 0x04) = 0x04) ∧
      G29.isButtonPressed "L3" s' = decide ((b1 &&& 0x80) = 0x80) ∧
      G29.isButtonPressed "R3" s' = decide ((b1 &&& 0x40) = 0x40) ∧
      G29.isButtonPressed "DPadUp" s' = decide ((b0 &&& 0x0F) = 0x00) ∧
      G29.isButtonPressed "DPadDown" s' = decide ((b0 &&& 0x0F) = 0x04) ∧
      G29.isButtonPressed "DPadLeft" s' = decide ((b0 &&& 0x0F) = 0x06) ∧
      G29.isButtonPressed "DPadRight" s' = decide ((b0 &&& 0x0F) = 0x02) ∧
      G29.isButtonPressed "RotaryDialPress" s' = decide ((b3 &&& 0x08) = 0x08) ∧
      G29.isButtonPressed "PlusButton" s' = decide ((b2 &&& 0x80) = 0x80) ∧
      G29.isButtonPressed "MinusButton" s' = decide ((b3 &&& 0x01) = 0x01) ∧
      G29.isButtonPressed "LeftPaddle" s' = decide ((b1 &&& 0x02) = 0x02) ∧
      G29.isButtonPressed "RightPaddle" s' = decide ((b1 &&& 0x01) = 0x01) ∧
      G29.isButtonPressed "Share" s' = decide ((b1 &&& 0x10) = 0x10) ∧
      G29.isButtonPressed "Options" s' = decide ((b1 &&& 0x20) = 0x20) ∧
      G29.isButtonPressed "PS" s' = decide ((b3 &&& 0x10) = 0x10) := by
  obtain ⟨b0, b1, b2, b3, b4, b5, b6, b7, b8, b9, b10, b11, b12, b13, b14, b15, rfl⟩ :=
    bytes_of_length_16 raw h
  refine ⟨G29.pressedLabel b0 b1 b2 b3,
    { s with buttonState := G29.buttonFlags b0 b1 b2 b3 s.buttonState }, b0, b1, b2, b3,
    updateButtonState_bytes b0 b1 b2 b3 b4 b5 b6 b7 b8 b9 b10 b11 b12 b13 b14 b15 s,
    rfl, rfl, rfl, rfl, ?_⟩
  exact isButtonPressed_buttonFlags b0 b1 b2 b3 s

/-- Witness of C4 on the report `18 05 ... 05` and the constructed wrapper. -/
theorem updateButtonState_flags_witness :
    (0x18 :: List.replicate 15 0x05).length = 16 ∧
    ∃ lbl s' b0 b1 b2 b3,
      G29.updateButtonState (0x18 :: List.replicate 15 0x05) G29.new = some (lbl, s') ∧
      (0x18 :: List.replicate 15 0x05)[0]? = some b0 ∧
      (0x18 :: List.replicate 15 0x05)[1]? = some b1 ∧
      (0x18 :: List.replicate 15 0x05)[2]? = some b2 ∧
      (0x18 :: List.replicate 15 0x05)[3]? = some b3 ∧
      G29.isButtonPressed "X" s' = decide ((b0 &&& 0x18) = 0x18) ∧
      G29.isButtonPressed "Square" s' = decide ((b0 &&& 0x28) = 0x28) ∧
      G29.isButtonPressed "Triangle" s' = decide ((b0 &&& 0x88) = 0x88) ∧
      G29.isButtonPressed "Circle" s' = decide ((b0 &&& 0x48) = 0x48) ∧
      G29.isButtonPressed "L2" s' = decide ((b1 &&& 0x08) = 0x08) ∧
      G29.isButtonPressed "R2" s' = decide ((b1 &&& 0x04) = 0x04) ∧
      G29.isButtonPressed "L3" s' = decide ((b1 &&& 0x80) = 0x80) ∧
      G29.isButtonPressed "R3" s' = decide ((b1 &&& 0x40) = 0x40) ∧
      G29.isButtonPressed "DPadUp" s' = decide ((b0 &&& 0x0F) = 0x00) ∧
      G29.isButtonPressed "DPadDown" s' = decide ((b0 &&& 0x0F) = 0x04) ∧
      G29.isButtonPressed "DPadLeft" s' = decide ((b0 &&& 0x0F) = 0x06) ∧
      G29.isButtonPressed "DPadRight" s' = decide ((b0 &&& 0x0F) = 0x02) ∧
      G29.isButtonPressed "RotaryDialPress" s' = decide ((b3 &&& 0x08) = 0x08) ∧
      G29.isButtonPressed "PlusButton" s' = decide ((b2 &&& 0x80) = 0x80) ∧
      G29.isButtonPressed "MinusButton" s' = decide ((b3 &&& 0x01) = 0x01) ∧
      G29.isButtonPressed "LeftPaddle" s' = decide ((b1 &&& 0x02) = 0x02) ∧
      G29.isButtonPressed "RightPaddle" s' = decide ((b1 &&& 0x01) = 0x01) ∧
      G29.isButtonPressed "Share" s' = decide ((b1 &&& 0x10) = 0x10) ∧
      G29.isButtonPressed "Options" s' = decide ((b1 &&& 0x20) = 0x20) ∧
      G29.isButtonPressed "PS" s' = decide ((b3 &&& 0x10) = 0x10) :=
  ⟨by decide, updateButtonState_flags (0x18 :: List.replicate 15 0x05) G29.new (by decide)⟩

/-- C5: on a 16-byte report whose byte 0 is one of the four single face-button
values, the decode sets that face button and clears the other three, whatever
the other bytes and the earlier flags are; the two reports of the
specification are instances. -/
theorem face_buttons_no_cross_trigger (raw : List Nat) (s : G29) (v : Nat)
    (h : raw.length = 16) (h0 : raw[0]? = some v)
    (hv : v = 0x18 ∨ v = 0x28 ∨ v = 0x88 ∨ v = 0x48) :
    (∃ lbl s', G29.updateButtonState raw s = some (lbl, s') ∧
      G29.isButtonPressed "X" s' = decide (v = 0x18) ∧
      G29.isButtonPressed "Square" s' = decide (v = 0x28) ∧
      G29.isButtonPressed "Triangle" s' = decide (v = 0x88) ∧
      G29.isButtonPressed "Circle" s' = decide (v = 0x48)) ∧
    (∃ lbl s', G29.updateButtonState (0x18 :: List.replicate 15 0x05) s = some (lbl, s') ∧
      G29.isButtonPressed "X" s' = true ∧ G29.isButtonPressed "Square" s' = false) ∧
    (∃ lbl s', G29.updateButtonState (0x28 :: List.replicate 15 0x05) s = some (lbl, s') ∧
      G29.isButtonPressed "Square" s' = true) := by
  refine ⟨?_, ?_, ?_⟩
  · obtain ⟨b0, b1, b2, b3, b4, b5, b6, b7, b8, b9, b10, b11, b12, b13, b14, b15, rfl⟩ :=
      bytes_of_length_16 raw h
    obtain rfl : b0 = v := by simpa using h0
    refine ⟨_, _, updateButtonState_bytes b0 b1 b2 b3 b4 b5 b6 b7 b8 b9 b10 b11 b12 b13 b14 b15 s,
      ?_⟩
    rcases hv with rfl | rfl | rfl | rfl <;>
      simp [G29.isButtonPressed, G29.buttonFlags, UMap.find_assign] <;> decide
  · refine ⟨_, _, updateButtonState_bytes 0x18 5 5 5 5 5 5 5 5 5 5 5 5 5 5 5 s, ?_⟩
    simp [G29.isButtonPressed, G29.buttonFlags, UMap.find_assign]
    decide
  · refine ⟨_, _, updateButtonState_bytes 0x28 5 5 5 5 5 5 5 5 5 5 5 5 5 5 5 s, ?_⟩
    simp [G29.isButtonPressed, G29.buttonFlags, UMap.find_assign]

/-- Witness of C5 on the report `88 00 ... 00` (Triangle alone) and the
constructed wrapper. -/
theorem face_buttons_no_cross_trigger_witness :
    ((0x88 :: List.replicate 15 0).length = 16 ∧
      (0x88 :: List.replicate 15 0)[0]? = some 0x88 ∧
      (0x88 = 0x18 ∨ 0x88 = 0x28 ∨ 0x88 = 0x88 ∨ 0x88 = 0x48)) ∧
    ((∃ lbl s', G29.updateButtonState (0x88 :: List.replicate 15 0) G29.new = some (lbl, s') ∧
      G29.isButtonPressed "X" s' = decide (0x88 = 0x18) ∧
      G29.isButtonPressed "Square" s' = decide (0x88 = 0x28) ∧
      G29.isButtonPressed "Triangle" s' = decide (0x88 = 0x88) ∧
      G29.isButtonPressed "Circle" s' = decide (0x88 = 0x48)) ∧
    (∃ lbl s', G29.updateButtonState (0x18 :: List.replicate 15 0x05) G29.new =
        some (lbl, s') ∧
      G29.isButtonPressed "X" s' = true ∧ G29.isButtonPressed "Square" s' = false) ∧
    (∃ lbl s', G29.updateButtonState (0x28 :: List.replicate 15 0x05) G29.new =
        some (lbl, s') ∧
      G29.isButtonPressed "Square" s' = true)) :=
  ⟨⟨by decide, by decide, by decide⟩,
    face_buttons_no_cross_trigger (0x88 :: List.replicate 15 0) G29.new 0x88
      (by decide) (by decide) (by decide)⟩

/-- C6: on a 16-byte report the returned label is the name of the first
entry of the specification table whose byte matches exactly, or the empty
string; the all-zero report yields `DPadUp`, and so does `getPressedButton` on
a wrapper whose cache is all zero. -/
theorem updateButtonState_label (raw : List Nat) (s : G29) (h : raw.length = 16) :
    (∃ s', G29.updateButtonState raw s = some (specLabel raw, s')) ∧
    (∃ s', G29.updateButtonState (List.replicate 16 0) s = some ("DPadUp", s')) ∧
    (s.cache = List.replicate 16 0 → ∃ s', G29.getPressedButton s = some ("DPadUp", s')) := by
  refine ⟨?_, ?_, ?_⟩
  · obtain ⟨b0, b1, b2, b3, b4, b5, b6, b7, b8, b9, b10, b11, b12, b13, b14, b15, rfl⟩ :=
      bytes_of_length_16 raw h
    refine ⟨{ s with buttonState := G29.buttonFlags b0 b1 b2 b3 s.buttonState }, ?_⟩
    rw [← pressedLabel_eq_specLabel]
    exact updateButtonState_bytes b0 b1 b2 b3 b4 b5 b6 b7 b8 b9 b10 b11 b12 b13 b14 b15 s
  · exact ⟨_, updateButtonState_bytes 0 0 0 0 0 0 0 0 0 0 0 0 0 0 0 0 s⟩
  · intro hc
    rw [G29.getPressedButton, hc]
    exact ⟨_, updateButtonState_bytes 0 0 0 0 0 0 0 0 0 0 0 0 0 0 0 0 s⟩

/-- Witness of C6 on the report `48 00 ... 00` and the constructed wrapper,
whose cache is all zero. -/
theorem updateButtonState_label_witness :
    ((0x48 :: List.replicate 15 0).length = 16 ∧ G29.new.cache = List.replicate 16 0) ∧
    (∃ s', G29.updateButtonState (0x48 :: List.replicate 15 0) G29.new =
      some (specLabel (0x48 :: List.replicate 15 0), s')) ∧
    (∃ s', G29.updateButtonState (List.replicate 16 0) G29.new = some ("DPadUp", s')) ∧
    (G29.new.cache = List.replicate 16 0 →
      ∃ s', G29.getPressedButton G29.new = some ("DPadUp", s')) :=
  ⟨⟨by decide, rfl⟩,
    updateButtonState_label (0x48 :: List.replicate 15 0) G29.new (by decide)⟩

/-- C7, the code at the failing input: with the cache `08 03 00 ... 00` (both paddles held, D-pad
at rest) `getPressedButton` returns the empty string although the button state
it has just decoded reports `LeftPaddle` and `RightPaddle` as pressed. -/
theorem getPressedButton_empty_while_pressed :
    ∃ s', G29.getPressedButton
        { G29.new with cache := [0x08, 0x03, 0, 0, 0, 0, 0, 0, 0, 0, 0, 0, 0, 0, 0, 0] } =
          some ("", s') ∧
      G29.isButtonPressed "LeftPaddle" s' = true ∧
      G29.isButtonPressed "RightPaddle" s' = true := by
  refine ⟨_, updateButtonState_bytes 0x08 0x03 0 0 0 0 0 0 0 0 0 0 0 0 0 0 _, ?_, ?_⟩
  · simp [G29.isButtonPressed, G29.buttonFlags, UMap.find_assign]
    decide
  · simp [G29.isButtonPressed, G29.buttonFlags, UMap.find_assign]

/-- C8, the code at the failing input: not-a-number does not lie in the closed
interval from 0 to 1, yet `forceFeedbackConstant` does not throw on it and
hands a frame to the transport. -/
theorem forceFeedbackConstant_nan_accepted (scale : F32 → Nat) (s : G29) :
    ¬ F32.InUnit F32.nan ∧
    G29.forceFeedbackConstant scale F32.nan s =
      (Except.ok (),
        G29.hid_write [0x14, 0x00, scale F32.nan, 0x00, 0x00, 0x00, 0x00] s) ∧
    (G29.forceFeedbackConstant scale F32.nan s).2.written =
      s.written ++ [[0x14, 0x00, scale F32.nan, 0x00, 0x00, 0x00, 0x00]] := by
  refine ⟨?_, ?_, ?_⟩
  · rintro ⟨q, hq, _⟩
    cases hq
  · simp [G29.forceFeedbackConstant, F32.lt, F32.gt]
  · simp [G29.forceFeedbackConstant, F32.lt, F32.gt, G29.hid_write]

/-- C10, the code at the failing input: with a not-a-number strength (and the
rate one half) or a not-a-number rate (and the strength one half)
`setAutocenter` does not throw and hands a frame to the transport, although
not-a-number does not lie in the closed interval from 0 to 1. -/
theorem setAutocenter_nan_accepted (scale : F32 → Nat) (s : G29) :
    ¬ F32.InUnit F32.nan ∧
    G29.setAutocenter scale F32.nan (F32.finite (1 / 2)) s =
      (Except.ok (),
        G29.hid_write [0x05, 0x00, scale F32.nan, scale (F32.finite (1 / 2)),
          0x00, 0x00, 0x00] s) ∧
    G29.setAutocenter scale (F32.finite (1 / 2)) F32.nan s =
      (Except.ok (),
        G29.hid_write [0x05, 0x00, scale (F32.finite (1 / 2)), scale F32.nan,
          0x00, 0x00, 0x00] s) := by
  refine ⟨?_, ?_, ?_⟩
  · rintro ⟨q, hq, _⟩
    cases hq
  · simp [G29.setAutocenter, F32.lt, F32.gt]
    norm_num
  · simp [G29.setAutocenter, F32.lt, F32.gt]
    norm_num

/-! ## Auxiliary lemmas: repeated decodes, polling, sequences of calls -/

theorem UMap.assign_of_find {α : Type} (m : UMap α) (k : String) (v : α)
    (h : UMap.find m k = some v) : UMap.assign m k v = m := by
  induction m with
  | nil => simp [UMap.find] at h
  | cons p rest ih =>
    obtain ⟨k0, v0⟩ := p
    by_cases h0 : k0 = k
    · simp [UMap.find, h0] at h
      simp [UMap.assign, h0, h]
    · simp [UMap.find, h0] at h
      simp [UMap.assign, h0, ih h]

theorem buttonFlags_find_other (b0 b1 b2 b3 : Nat) (bs : UMap Bool) (k : String)
    (hk : k ∉ buttonNames) :
    UMap.find (G29.buttonFlags b0 b1 b2 b3 bs) k = UMap.find bs k := by
  simp only [buttonNames, List.mem_cons, List.mem_singleton, List.not_mem_nil,
    or_false, not_or] at hk
  simp [G29.buttonFlags, UMap.find_assign, eq_comm (b := k), hk]

theorem buttonFlags_idem (b0 b1 b2 b3 : Nat) (bs : UMap Bool) :
    G29.buttonFlags b0 b1 b2 b3 (G29.buttonFlags b0 b1 b2 b3 bs) =
      G29.buttonFlags b0 b1 b2 b3 bs := by
  have key : ∀ M : UMap Bool,
      UMap.find M "X" = some (decide ((b0 &&& 0x18) = 0x18)) →
      UMap.find M "Square" = some (decide ((b0 &&& 0x28) = 0x28)) →
      UMap.find M "Triangle" = some (decide ((b0 &&& 0x88) = 0x88)) →
      UMap.find M "Circle" = some (decide ((b0 &&& 0x48) = 0x48)) →
      UMap.find M "L2" = some (decide ((b1 &&& 0x08) = 0x08)) →
      UMap.find M "R2" = some (decide ((b1 &&& 0x04) = 0x04)) →
      UMap.find M "L3" = some (decide ((b1 &&& 0x80) = 0x80)) →
      UMap.find M "R3" = some (decide ((b1 &&& 0x40) = 0x40)) →
      UMap.find M "DPadUp" = some (decide ((b0 &&& 0x0F) = 0x00)) →
      UMap.find M "DPadDown" = some (decide ((b0 &&& 0x0F) = 0x04)) →
      UMap.find M "DPadLeft" = some (decide ((b0 &&& 0x0F) = 0x06)) →
      UMap.find M "DPadRight" = some (decide ((b0 &&& 0x0F) = 0x02)) →
      UMap.find M "RotaryDialPress" = some (decide ((b3 &&& 0x08) = 0x08)) →
      UMap.find M "PlusButton" = some (decide ((b2 &&& 0x80) = 0x80)) →
      UMap.find M "MinusButton" = some (decide ((b3 &&& 0x01) = 0x01)) →
      UMap.find M "LeftPaddle" = some (decide ((b1 &&& 0x02) = 0x02)) →
      UMap.find M "RightPaddle" = some (decide ((b1 &&& 0x01) = 0x01)) →
      UMap.find M "Share" = some (decide ((b1 &&& 0x10) = 0x10)) →
      UMap.find M "Options" = some (decide ((b1 &&& 0x20) = 0x20)) →
      UMap.find M "PS" = some (decide ((b3 &&& 0x10) = 0x10)) →
      G29.buttonFlags b0 b1 b2 b3 M = M := by
    intro M h1 h2 h3 h4 h5 h6 h7 h8 h9 h10 h11 h12 h13 h14 h15 h16 h17 h18 h19 h20
    simp only [G29.buttonFlags]
    rw [UMap.assign_of_find M _ _ h1, UMap.assign_of_find M _ _ h2,
      UMap.assign_of_find M _ _ h3, UMap.assign_of_find M _ _ h4,
      UMap.assign_of_find M _ _ h5, UMap.assign_of_find M _ _ h6,
      UMap.assign_of_find M _ _ h7, UMap.assign_of_find M _ _ h8,
      UMap.assign_of_find M _ _ h9, UMap.assign_of_find M _ _ h10,
      UMap.assign_of_find M _ _ h11, UMap.assign_of_find M _ _ h12,
      UMap.assign_of_find M _ _ h13, UMap.assign_of_find M _ _ h14,
      UMap.assign_of_find M _ _ h15, UMap.assign_of_find M _ _ h16,
      UMap.assign_of_find M _ _ h17, UMap.assign_of_find M _ _ h18,
      UMap.assign_of_find M _ _ h19, UMap.assign_of_find M _ _ h20]
  apply key <;> simp [G29.buttonFlags, UMap.find_assign]

/-- The button decode never fails: on fewer than 16 bytes it returns the empty
label and the wrapper it was given, otherwise it rewrites the flags from the
bytes at offsets 0 to 3 and touches nothing else. -/
theorem updateButtonState_total (raw : List Nat) (s : G29) :
    (raw.length < 16 ∧ G29.updateButtonState raw s = some ("", s)) ∨
    (16 ≤ raw.length ∧ ∃ b0 b1 b2 b3, raw[0]? = some b0 ∧ raw[1]? = some b1 ∧
      raw[2]? = some b2 ∧ raw[3]? = some b3 ∧
      G29.updateButtonState raw s = some (G29.pressedLabel b0 b1 b2 b3,
        { s with buttonState := G29.buttonFlags b0 b1 b2 b3 s.buttonState })) := by
  by_cases h : raw.length < 16
  · left
    exact ⟨h, by simp [G29.updateButtonState, h]⟩
  · right
    have h16 : 16 ≤ raw.length := by omega
    have e0 : raw[0]? = some (raw[0]) := List.getElem?_eq_getElem (by omega)
    have e1 : raw[1]? = some (raw[1]) := List.getElem?_eq_getElem (by omega)
    have e2 : raw[2]? = some (raw[2]) := List.getElem?_eq_getElem (by omega)
    have e3 : raw[3]? = some (raw[3]) := List.getElem?_eq_getElem (by omega)
    refine ⟨h16, raw[0], raw[1], raw[2], raw[3], e0, e1, e2, e3, ?_⟩
    simp [G29.updateButtonState, h, e0, e1, e2, e3]

theorem state_assign_idem (b4 b5 b6 b7 b8 : Nat) (st : UMap Nat) :
    ((((((((st.assign "steering" (G29.calculateSteering b4 b5)).assign
      "throttle" b6).assign "clutch" b8).assign "brake" b7).assign
      "steering" (G29.calculateSteering b4 b5)).assign
      "throttle" b6).assign "clutch" b8).assign "brake" b7) =
    (((st.assign "steering" (G29.calculateSteering b4 b5)).assign
      "throttle" b6).assign "clutch" b8).assign "brake" b7 := by
  have key : ∀ M : UMap Nat,
      UMap.find M "steering" = some (G29.calculateSteering b4 b5) →
      UMap.find M "throttle" = some b6 →
      UMap.find M "clutch" = some b8 →
      UMap.find M "brake" = some b7 →
      (((M.assign "steering" (G29.calculateSteering b4 b5)).assign
        "throttle" b6).assign "clutch" b8).assign "brake" b7 = M := by
    intro M h1 h2 h3 h4
    rw [UMap.assign_of_find M _ _ h1, UMap.assign_of_find M _ _ h2,
      UMap.assign_of_find M _ _ h3, UMap.assign_of_find M _ _ h4]
  apply key <;> simp [UMap.find_assign]

theorem storeRead_length (r : HidRead) (cache : List Nat) :
    (G29.storeRead r cache).length = cache.length := by
  simp only [G29.storeRead, List.length_take, List.length_append, List.length_drop]
  omega

/-- The loop of `pump` changes nothing but the cache, whose length it keeps. -/
theorem pumpLoop_frame (timeout : Int) (polls : List Poll) (n : Nat) (s : G29) :
    (G29.pumpLoop timeout polls n s).2.state = s.state ∧
    (G29.pumpLoop timeout polls n s).2.buttonState = s.buttonState ∧
    (G29.pumpLoop timeout polls n s).2.written = s.written ∧
    (G29.pumpLoop timeout polls n s).2.cache.length = s.cache.length := by
  induction polls generalizing n s with
  | nil => simp [G29.pumpLoop]
  | cons p rest ih =>
    simp only [G29.pumpLoop]
    split_ifs with h1 h2
    · simp [storeRead_length]
    · have := ih (toSizeT p.read.ret) { s with cache := G29.storeRead p.read s.cache }
      simpa [storeRead_length] using this
    · simp

/-- While every read that is performed answers `0`, the loop of `pump` keeps
`bytes_read` at `0`. -/
theorem pumpLoop_zero (timeout : Int) (polls : List Poll) (s : G29)
    (h : ∀ p ∈ polls, p.elapsed < timeout → p.read.ret = 0) :
    (G29.pumpLoop timeout polls 0 s).1 = 0 := by
  induction polls generalizing s with
  | nil => simp [G29.pumpLoop]
  | cons p rest ih =>
    simp only [G29.pumpLoop]
    by_cases h1 : p.elapsed < timeout
    · have hp : p.read.ret = 0 := h p (List.mem_cons_self _ _) h1
      have hz : toSizeT p.read.ret = 0 := by simp [toSizeT, hp]
      simp only [h1, if_true, hz, gt_iff_lt, lt_self_iff_false, if_false]
      exact ih _ (fun q hq => h q (List.mem_cons_of_mem _ hq))
    · simp [h1]

/-- Decoding a 16-byte report a second time gives back the very same wrapper. -/
theorem updateState_bytes_idem
    (b0 b1 b2 b3 b4 b5 b6 b7 b8 b9 b10 b11 b12 b13 b14 b15 : Nat) (s : G29) :
    ∃ s1,
      G29.updateState
        [b0, b1, b2, b3, b4, b5, b6, b7, b8, b9, b10, b11, b12, b13, b14, b15] s = some s1 ∧
      s1.cache = s.cache ∧ s1.written = s.written ∧
      G29.updateState
        [b0, b1, b2, b3, b4, b5, b6, b7, b8, b9, b10, b11, b12, b13, b14, b15] s1 = some s1 := by
  refine ⟨_, updateState_bytes b0 b1 b2 b3 b4 b5 b6 b7 b8 b9 b10 b11 b12 b13 b14 b15 s,
    rfl, rfl, ?_⟩
  rw [updateState_bytes]
  simp only [state_assign_idem, buttonFlags_idem]

/-! ## Theorems, continued -/

/-- C12: `reset` hands exactly two frames to the transport, each of 7 bytes,
first `F8 0A 00 00 00 00 00`, then `F8 09 05 01 01 00 00`, after the frames
written before; it changes neither the axis values nor the button flags nor
the cache. -/
theorem reset_two_frames (s : G29) :
    (G29.reset s).written =
      s.written ++ [[0xF8, 0x0A, 0x00, 0x00, 0x00, 0x00, 0x00],
        [0xF8, 0x09, 0x05, 0x01, 0x01, 0x00, 0x00]] ∧
    (∀ f ∈ (G29.reset s).written.drop s.written.length, f.length = 7) ∧
    ((G29.reset s).written.drop s.written.length).length = 2 ∧
    (G29.reset s).state = s.state ∧
    (G29.reset s).buttonState = s.buttonState ∧
    (G29.reset s).cache = s.cache := by
  have hw : (G29.reset s).written =
      s.written ++ [[0xF8, 0x0A, 0x00, 0x00, 0x00, 0x00, 0x00],
        [0xF8, 0x09, 0x05, 0x01, 0x01, 0x00, 0x00]] := by
    simp [G29.reset, G29.hid_write]
  refine ⟨hw, ?_, ?_, rfl, rfl, rfl⟩
  · rw [hw, List.drop_left]
    intro f hf
    simp only [List.mem_cons, List.mem_singleton, List.not_mem_nil, or_false] at hf
    rcases hf with rfl | rfl <;> rfl
  · rw [hw, List.drop_left]
    rfl

/-- C14, the code at the failing input: on the constructed wrapper a poll
whose single `hid_read` fails with `-1` makes `pump` return the positive count
`2^64 - 1`, and `readLoop` decodes the cache of 16 zero bytes: the throttle
goes from 255 to 0 and `DPadUp` from not pressed to pressed. -/
theorem readLoop_failed_read_decodes :
    (G29.pump 1 [⟨0, ⟨-1, []⟩⟩] G29.new).1 = 18446744073709551615 ∧
    ∃ s', G29.readLoop [⟨0, ⟨-1, []⟩⟩] G29.new = some s' ∧
      UMap.find (G29.getState G29.new) "throttle" = some 255 ∧
      UMap.find (G29.getState s') "throttle" = some 0 ∧
      G29.isButtonPressed "DPadUp" G29.new = false ∧
      G29.isButtonPressed "DPadUp" s' = true := by
  have hp : G29.pump 1 [⟨0, ⟨-1, []⟩⟩] G29.new = (18446744073709551615, G29.new) := by
    decide
  refine ⟨by rw [hp], { G29.new with
    state := (((G29.new.state.assign "steering" (G29.calculateSteering 0 0)).assign
      "throttle" 0).assign "clutch" 0).assign "brake" 0
    buttonState := G29.buttonFlags 0 0 0 0 G29.new.buttonState }, ?_, ?_, ?_, ?_, ?_⟩
  · simp only [G29.readLoop, hp]
    exact updateState_bytes 0 0 0 0 0 0 0 0 0 0 0 0 0 0 0 0 G29.new
  · decide
  · decide
  · decide
  · decide

/-- C15: when every `hid_read` performed during the poll answers `0`, `pump`
returns `0` and `readLoop` completes with the axis values and the button flags
as they were; the same holds when the budget is exhausted at the first test of
the loop condition, whatever the transport would have answered. -/
theorem poll_timeout_no_update (timeout : Int) (polls : List Poll) (s : G29)
    (h : ∀ p ∈ polls, p.read.ret = 0) :
    (G29.pump timeout polls s).1 = 0 ∧
    (∃ s', G29.readLoop polls s = some s' ∧
      s'.state = s.state ∧ s'.buttonState = s.buttonState) ∧
    (∀ (p : Poll) (rest : List Poll), timeout ≤ p.elapsed →
      G29.pump timeout (p :: rest) s = (0, s)) ∧
    (∀ (p : Poll) (rest : List Poll), 1 ≤ p.elapsed →
      G29.readLoop (p :: rest) s = some s) ∧
    G29.pump timeout [] s = (0, s) ∧ G29.readLoop [] s = some s := by
  refine ⟨?_, ?_, ?_, ?_, ?_, ?_⟩
  · exact pumpLoop_zero timeout polls s (fun p hp _ => h p hp)
  · have hz : (G29.pump 1 polls s).1 = 0 :=
      pumpLoop_zero 1 polls s (fun p hp _ => h p hp)
    have hf := pumpLoop_frame 1 polls 0 s
    refine ⟨(G29.pump 1 polls s).2, ?_, hf.1, hf.2.1⟩
    simp [G29.readLoop, hz]
  · intro p rest hp
    have : ¬ p.elapsed < timeout := by omega
    simp [G29.pump, G29.pumpLoop, this]
  · intro p rest hp
    have : ¬ p.elapsed < 1 := by omega
    simp [G29.readLoop, G29.pump, G29.pumpLoop, this]
  · rfl
  · rfl

/-- Witness of C15: three reads answering `0` within a budget of 5 seconds, on
the constructed wrapper. -/
theorem poll_timeout_no_update_witness :
    (∀ p ∈ [(⟨0, ⟨0, []⟩⟩ : Poll), ⟨0, ⟨0, []⟩⟩, ⟨0, ⟨0, []⟩⟩], p.read.ret = 0) ∧
    ((G29.pump 5 [⟨0, ⟨0, []⟩⟩, ⟨0, ⟨0, []⟩⟩, ⟨0, ⟨0, []⟩⟩] G29.new).1 = 0 ∧
    (∃ s', G29.readLoop [⟨0, ⟨0, []⟩⟩, ⟨0, ⟨0, []⟩⟩, ⟨0, ⟨0, []⟩⟩] G29.new = some s' ∧
      s'.state = G29.new.state ∧ s'.buttonState = G29.new.buttonState) ∧
    (∀ (p : Poll) (rest : List Poll), 5 ≤ p.elapsed →
      G29.pump 5 (p :: rest) G29.new = (0, G29.new)) ∧
    (∀ (p : Poll) (rest : List Poll), 1 ≤ p.elapsed →
      G29.readLoop (p :: rest) G29.new = some G29.new) ∧
    G29.pump 5 [] G29.new = (0, G29.new) ∧ G29.readLoop [] G29.new = some G29.new) :=
  ⟨by decide,
    poll_timeout_no_update 5 [⟨0, ⟨0, []⟩⟩, ⟨0, ⟨0, []⟩⟩, ⟨0, ⟨0, []⟩⟩] G29.new (by decide)⟩

/-- C16: decoding a 16-byte report twice gives the same wrapper as decoding
it once: the second `updateState` returns its argument, so every axis value
and every button flag is the one after the first decode. -/
theorem updateState_idempotent (raw : List Nat) (s : G29) (h : raw.length = 16) :
    ∃ s1, G29.updateState raw s = some s1 ∧ G29.updateState raw s1 = some s1 ∧
      (∀ s2, G29.updateState raw s1 = some s2 →
        (∀ k, UMap.find (G29.getState s2) k = UMap.find (G29.getState s1) k) ∧
        (∀ name, G29.isButtonPressed name s2 = G29.isButtonPressed name s1)) := by
  obtain ⟨b0, b1, b2, b3, b4, b5, b6, b7, b8, b9, b10, b11, b12, b13, b14, b15, rfl⟩ :=
    bytes_of_length_16 raw h
  obtain ⟨s1, h1, _, _, h2⟩ :=
    updateState_bytes_idem b0 b1 b2 b3 b4 b5 b6 b7 b8 b9 b10 b11 b12 b13 b14 b15 s
  refine ⟨s1, h1, h2, ?_⟩
  intro s2 hs2
  rw [h2] at hs2
  cases hs2
  exact ⟨fun _ => rfl, fun _ => rfl⟩

/-- Witness of C16 on the report `0, 1, ..., 15` and the constructed wrapper. -/
theorem updateState_idempotent_witness :
    (List.range 16).length = 16 ∧
    ∃ s1, G29.updateState (List.range 16) G29.new = some s1 ∧
      G29.updateState (List.range 16) s1 = some s1 ∧
      (∀ s2, G29.updateState (List.range 16) s1 = some s2 →
        (∀ k, UMap.find (G29.getState s2) k = UMap.find (G29.getState s1) k) ∧
        (∀ name, G29.isButtonPressed name s2 = G29.isButtonPressed name s1)) :=
  ⟨by decide, updateState_idempotent (List.range 16) G29.new (by decide)⟩

/-- C17: on every byte array the button decode completes without a read at or
beyond the length of the array (at 16 bytes or more it reads the offsets 0 to
3 only); on fewer than 16 bytes it returns the empty label and the wrapper it
was given, so every button flag is as before. -/
theorem updateButtonState_in_bounds (raw : List Nat) (s : G29) :
    (∃ r, G29.updateButtonState raw s = some r) ∧
    (16 ≤ raw.length → ∃ b0 b1 b2 b3, raw[0]? = some b0 ∧ raw[1]? = some b1 ∧
      raw[2]? = some b2 ∧ raw[3]? = some b3 ∧
      G29.updateButtonState raw s = some (G29.pressedLabel b0 b1 b2 b3,
        { s with buttonState := G29.buttonFlags b0 b1 b2 b3 s.buttonState })) ∧
    (raw.length < 16 →
      G29.updateButtonState raw s = some ("", s) ∧
      ∀ s' lbl, G29.updateButtonState raw s = some (lbl, s') →
        lbl = "" ∧ ∀ name, G29.isButtonPressed name s' = G29.isButtonPressed name s) := by
  rcases updateButtonState_total raw s with ⟨hlt, he⟩ | ⟨hge, hrest⟩
  · refine ⟨⟨_, he⟩, fun h16 => absurd hlt (by omega), fun _ => ⟨he, ?_⟩⟩
    intro s' lbl hs
    rw [he] at hs
    cases hs
    exact ⟨rfl, fun _ => rfl⟩
  · obtain ⟨b0, b1, b2, b3, e0, e1, e2, e3, he⟩ := hrest
    exact ⟨⟨_, he⟩, fun _ => ⟨b0, b1, b2, b3, e0, e1, e2, e3, he⟩,
      fun hlt => absurd hge (by omega)⟩

/-- Witness of C17 on a 3-byte array and on a 16-byte array, with the
constructed wrapper. -/
theorem updateButtonState_in_bounds_witness :
    ([0x18, 0x05, 0x05] : List Nat).length < 16 ∧ 16 ≤ (List.range 16).length ∧
    (G29.updateButtonState [0x18, 0x05, 0x05] G29.new = some ("", G29.new) ∧
      ∀ s' lbl, G29.updateButtonState [0x18, 0x05, 0x05] G29.new = some (lbl, s') →
        lbl = "" ∧
          ∀ name, G29.isButtonPressed name s' = G29.isButtonPressed name G29.new) ∧
    (∃ b0 b1 b2 b3, (List.range 16)[0]? = some b0 ∧ (List.range 16)[1]? = some b1 ∧
      (List.range 16)[2]? = some b2 ∧ (List.range 16)[3]? = some b3 ∧
      G29.updateButtonState (List.range 16) G29.new = some (G29.pressedLabel b0 b1 b2 b3,
        { G29.new with buttonState := G29.buttonFlags b0 b1 b2 b3 G29.new.buttonState })) :=
  ⟨by decide, by decide,
    (updateButtonState_in_bounds [0x18, 0x05, 0x05] G29.new).2.2 (by decide),
    (updateButtonState_in_bounds (List.range 16) G29.new).2.1 (by decide)⟩

/-- C18: right after construction `getState` holds steering, throttle, brake
and clutch, each 255 (so it is not empty), and `isButtonPressed` is false for
every name, the 20 button names among them. -/
theorem new_defaults :
    UMap.find (G29.getState G29.new) "steering" = some 255 ∧
    UMap.find (G29.getState G29.new) "throttle" = some 255 ∧
    UMap.find (G29.getState G29.new) "brake" = some 255 ∧
    UMap.find (G29.getState G29.new) "clutch" = some 255 ∧
    G29.getState G29.new ≠ [] ∧
    buttonNames.all (fun name => !G29.isButtonPressed name G29.new) = true ∧
    (∀ name : String, G29.isButtonPressed name G29.new = false) := by
  refine ⟨by decide, by decide, by decide, by decide, by decide, by decide, fun _ => rfl⟩

/-- Case analysis on the label chain: a property of the label follows from
its 20 exact comparisons and the final empty label. -/
theorem pressedLabel_cases (P : String → Prop) (b0 b1 b2 b3 : Nat)
    (h1 : b0 = 0x18 → P "X")
    (h2 : b0 = 0x28 → P "Square")
    (h3 : b0 = 0x88 → P "Triangle")
    (h4 : b0 = 0x48 → P "Circle")
    (h5 : b1 = 0x08 → P "L2")
    (h6 : b1 = 0x04 → P "R2")
    (h7 : b1 = 0x80 → P "L3")
    (h8 : b1 = 0x40 → P "R3")
    (h9 : b0 = 0x00 → P "DPadUp")
    (h10 : b0 = 0x04 → P "DPadDown")
    (h11 : b0 = 0x06 → P "DPadLeft")
    (h12 : b0 = 0x02 → P "DPadRight")
    (h13 : b3 = 0x08 → P "RotaryDialPress")
    (h14 : b2 = 0x80 → P "PlusButton")
    (h15 : b3 = 0x01 → P "MinusButton")
    (h16 : b1 = 0x02 → P "LeftPaddle")
    (h17 : b1 = 0x01 → P "RightPaddle")
    (h18 : b1 = 0x10 → P "Share")
    (h19 : b1 = 0x20 → P "Options")
    (h20 : b3 = 0x10 → P "PS")
    (h21 : P "") : P (G29.pressedLabel b0 b1 b2 b3) := by
  unfold G29.pressedLabel
  by_cases c1 : b0 = 0x18
  · rw [if_pos c1]; exact h1 c1
  rw [if_neg c1]
  by_cases c2 : b0 = 0x28
  · rw [if_pos c2]; exact h2 c2
  rw [if_neg c2]
  by_cases c3 : b0 = 0x88
  · rw [if_pos c3]; exact h3 c3
  rw [if_neg c3]
  by_cases c4 : b0 = 0x48
  · rw [if_pos c4]; exact h4 c4
  rw [if_neg c4]
  by_cases c5 : b1 = 0x08
  · rw [if_pos c5]; exact h5 c5
  rw [if_neg c5]
  by_cases c6 : b1 = 0x04
  · rw [if_pos c6]; exact h6 c6
  rw [if_neg c6]
  by_cases c7 : b1 = 0x80
  · rw [if_pos c7]; exact h7 c7
  rw [if_neg c7]
  by_cases c8 : b1 = 0x40
  · rw [if_pos c8]; exact h8 c8
  rw [if_neg c8]
  by_cases c9 : b0 = 0x00
  · rw [if_pos c9]; exact h9 c9
  rw [if_neg c9]
  by_cases c10 : b0 = 0x04
  · rw [if_pos c10]; exact h10 c10
  rw [if_neg c10]
  by_cases c11 : b0 = 0x06
  · rw [if_pos c11]; exact h11 c11
  rw [if_neg c11]
  by_cases c12 : b0 = 0x02
  · rw [if_pos c12]; exact h12 c12
  rw [if_neg c12]
  by_cases c13 : b3 = 0x08
  · rw [if_pos c13]; exact h13 c13
  rw [if_neg c13]
  by_cases c14 : b2 = 0x80
  · rw [if_pos c14]; exact h14 c14
  rw [if_neg c14]
  by_cases c15 : b3 = 0x01
  · rw [if_pos c15]; exact h15 c15
  rw [if_neg c15]
  by_cases c16 : b1 = 0x02
  · rw [if_pos c16]; exact h16 c16
  rw [if_neg c16]
  by_cases c17 : b1 = 0x01
  · rw [if_pos c17]; exact h17 c17
  rw [if_neg c17]
  by_cases c18 : b1 = 0x10
  · rw [if_pos c18]; exact h18 c18
  rw [if_neg c18]
  by_cases c19 : b1 = 0x20
  · rw [if_pos c19]; exact h19 c19
  rw [if_neg c19]
  by_cases c20 : b3 = 0x10
  · rw [if_pos c20]; exact h20 c20
  rw [if_neg c20]
  exact h21

/-- A label that is not empty names one of the 20 buttons, and the flags
decoded from the same bytes report that button as pressed. -/
theorem pressedLabel_pressed (b0 b1 b2 b3 : Nat) (s : G29) :
    G29.pressedLabel b0 b1 b2 b3 ≠ "" →
      G29.pressedLabel b0 b1 b2 b3 ∈ buttonNames ∧
      G29.isButtonPressed (G29.pressedLabel b0 b1 b2 b3)
        { s with buttonState := G29.buttonFlags b0 b1 b2 b3 s.buttonState } = true := by
  obtain ⟨f1, f2, f3, f4, f5, f6, f7, f8, f9, f10, f11, f12, f13, f14, f15, f16, f17, f18,
    f19, f20⟩ := isButtonPressed_buttonFlags b0 b1 b2 b3 s
  refine pressedLabel_cases (fun l => l ≠ "" → l ∈ buttonNames ∧
    G29.isButtonPressed l
      { s with buttonState := G29.buttonFlags b0 b1 b2 b3 s.buttonState } = true)
    b0 b1 b2 b3 ?_ ?_ ?_ ?_ ?_ ?_ ?_ ?_ ?_ ?_ ?_ ?_ ?_ ?_ ?_ ?_ ?_ ?_ ?_ ?_ ?_
  · intro h _; refine ⟨by decide, ?_⟩; rw [f1, h]; decide
  · intro h _; refine ⟨by decide, ?_⟩; rw [f2, h]; decide
  · intro h _; refine ⟨by decide, ?_⟩; rw [f3, h]; decide
  · intro h _; refine ⟨by decide, ?_⟩; rw [f4, h]; decide
  · intro h _; refine ⟨by decide, ?_⟩; rw [f5, h]; decide
  · intro h _; refine ⟨by decide, ?_⟩; rw [f6, h]; decide
  · intro h _; refine ⟨by decide, ?_⟩; rw [f7, h]; decide
  · intro h _; refine ⟨by decide, ?_⟩; rw [f8, h]; decide
  · intro h _; refine ⟨by decide, ?_⟩; rw [f9, h]; decide
  · intro h _; refine ⟨by decide, ?_⟩; rw [f10, h]; decide
  · intro h _; refine ⟨by decide, ?_⟩; rw [f11, h]; decide
  · intro h _; refine ⟨by decide, ?_⟩; rw [f12, h]; decide
  · intro h _; refine ⟨by decide, ?_⟩; rw [f13, h]; decide
  · intro h _; refine ⟨by decide, ?_⟩; rw [f14, h]; decide
  · intro h _; refine ⟨by decide, ?_⟩; rw [f15, h]; decide
  · intro h _; refine ⟨by decide, ?_⟩; rw [f16, h]; decide
  · intro h _; refine ⟨by decide, ?_⟩; rw [f17, h]; decide
  · intro h _; refine ⟨by decide, ?_⟩; rw [f18, h]; decide
  · intro h _; refine ⟨by decide, ?_⟩; rw [f19, h]; decide
  · intro h _; refine ⟨by decide, ?_⟩; rw [f20, h]; decide
  · intro h; exact absurd rfl h

/-- The full decode never fails: off 16 bytes it returns the wrapper it was
given, on 16 bytes it rewrites the four axis entries and the flags. -/
theorem updateState_total (raw : List Nat) (s : G29) :
    (raw.length ≠ 16 ∧ G29.updateState raw s = some s) ∨
    (raw.length = 16 ∧ ∃ b0 b1 b2 b3 b4 b5 b6 b7 b8,
      raw[0]? = some b0 ∧ raw[1]? = some b1 ∧ raw[2]? = some b2 ∧ raw[3]? = some b3 ∧
      G29.updateState raw s = some { s with
        state := (((s.state.assign "steering" (G29.calculateSteering b4 b5)).assign
          "throttle" b6).assign "clutch" b8).assign "brake" b7
        buttonState := G29.buttonFlags b0 b1 b2 b3 s.buttonState }) := by
  by_cases h : raw.length = 16
  · right
    obtain ⟨b0, b1, b2, b3, b4, b5, b6, b7, b8, b9, b10, b11, b12, b13, b14, b15, rfl⟩ :=
      bytes_of_length_16 raw h
    exact ⟨h, b0, b1, b2, b3, b4, b5, b6, b7, b8, rfl, rfl, rfl, rfl,
      updateState_bytes b0 b1 b2 b3 b4 b5 b6 b7 b8 b9 b10 b11 b12 b13 b14 b15 s⟩
  · left
    exact ⟨h, by simp [G29.updateState, h]⟩

/-- A call either leaves the flag map as it was or rewrites it with the 20
assignments of the button decode. -/
theorem step_buttonState (scale : F32 → Nat) (op : Op) (s s' : G29)
    (h : step scale op s = some s') :
    s'.buttonState = s.buttonState ∨
      ∃ b0 b1 b2 b3, s'.buttonState = G29.buttonFlags b0 b1 b2 b3 s.buttonState := by
  cases op with
  | connect polls =>
    simp only [step, Option.some.injEq] at h
    subst h
    exact Or.inl (pumpLoop_frame 10 polls 0 s).2.1
  | reset =>
    simp only [step, Option.some.injEq] at h
    subst h
    exact Or.inl rfl
  | forceFeedbackConstant val =>
    simp only [step, Option.some.injEq] at h
    subst h
    left
    unfold G29.forceFeedbackConstant
    split_ifs <;> rfl
  | setAutocenter strength rate =>
    simp only [step, Option.some.injEq] at h
    subst h
    left
    unfold G29.setAutocenter
    split_ifs <;> rfl
  | forceOff =>
    simp only [step, Option.some.injEq] at h
    subst h
    exact Or.inl rfl
  | pump timeout polls =>
    simp only [step, Option.some.injEq] at h
    subst h
    exact Or.inl (pumpLoop_frame timeout polls 0 s).2.1
  | readLoop polls =>
    simp only [step, G29.readLoop] at h
    have hf : (G29.pump 1 polls s).2.buttonState = s.buttonState :=
      (pumpLoop_frame 1 polls 0 s).2.1
    split_ifs at h
    · rcases updateState_total (G29.pump 1 polls s).2.cache (G29.pump 1 polls s).2 with
        ⟨_, he⟩ | ⟨_, b0, b1, b2, b3, b4, b5, b6, b7, b8, _, _, _, _, he⟩
      · rw [he] at h
        cases h
        exact Or.inl hf
      · rw [he] at h
        have hs' := Option.some.inj h
        right
        refine ⟨b0, b1, b2, b3, ?_⟩
        rw [← hs']
        simp only [hf]
    · cases h
      exact Or.inl hf
  | getState =>
    simp only [step, Option.some.injEq] at h
    subst h
    exact Or.inl rfl
  | isButtonPressed button =>
    simp only [step, Option.some.injEq] at h
    subst h
    exact Or.inl rfl
  | getPressedButton =>
    simp only [step, G29.getPressedButton] at h
    rcases updateButtonState_total s.cache s with ⟨_, he⟩ | ⟨_, b0, b1, b2, b3, _, _, _, _, he⟩
    · rw [he] at h
      simp only [Option.map_some', Option.some.injEq] at h
      exact Or.inl (by rw [← h])
    · rw [he] at h
      simp only [Option.map_some', Option.some.injEq] at h
      exact Or.inr ⟨b0, b1, b2, b3, by rw [← h]⟩
  | updateState raw =>
    simp only [step] at h
    rcases updateState_total raw s with
      ⟨_, he⟩ | ⟨_, b0, b1, b2, b3, b4, b5, b6, b7, b8, _, _, _, _, he⟩
    · rw [he] at h
      simp only [Option.some.injEq] at h
      exact Or.inl (by rw [← h])
    · rw [he] at h
      simp only [Option.some.injEq] at h
      exact Or.inr ⟨b0, b1, b2, b3, by rw [← h]⟩
  | updateButtonState raw =>
    simp only [step] at h
    rcases updateButtonState_total raw s with ⟨_, he⟩ | ⟨_, b0, b1, b2, b3, _, _, _, _, he⟩
    · rw [he] at h
      simp only [Option.map_some', Option.some.injEq] at h
      exact Or.inl (by rw [← h])
    · rw [he] at h
      simp only [Option.map_some', Option.some.injEq] at h
      exact Or.inr ⟨b0, b1, b2, b3, by rw [← h]⟩

/-- Along every sequence of calls the flag map holds no name outside the 20
button names, provided it held none at the start. -/
theorem run_buttonState_names (scale : F32 → Nat) (ops : List Op) (s s' : G29)
    (hs : ∀ k, k ∉ buttonNames → UMap.find s.buttonState k = none)
    (h : run scale ops s = some s') :
    ∀ k, k ∉ buttonNames → UMap.find s'.buttonState k = none := by
  induction ops generalizing s with
  | nil =>
    simp only [run, Option.some.injEq] at h
    subst h
    exact hs
  | cons op ops ih =>
    simp only [run] at h
    cases hstep : step scale op s with
    | none => simp [hstep] at h
    | some s1 =>
      rw [hstep] at h
      refine ih s1 ?_ h
      intro k hk
      rcases step_buttonState scale op s s1 hstep with he | ⟨b0, b1, b2, b3, he⟩
      · rw [he]; exact hs k hk
      · rw [he, buttonFlags_find_other b0 b1 b2 b3 s.buttonState k hk]; exact hs k hk

/-- C19: in every state reached from construction by a sequence of calls
(the decodes on arbitrary byte arrays among them), `isButtonPressed` answers
false for every name outside the 20 button names; the empty string and names
in another letter case are instances. The call is a pure lookup: it cannot
fail and returns no new state. -/
theorem isButtonPressed_unknown_name (scale : F32 → Nat) (ops : List Op) (s : G29)
    (name : String) (hrun : run scale ops G29.new = some s)
    (hname : name ∉ buttonNames) :
    G29.isButtonPressed name s = false ∧
    G29.isButtonPressed "" s = false ∧
    G29.isButtonPressed "x" s = false ∧
    G29.isButtonPressed "dpadup" s = false ∧
    G29.isButtonPressed "ps" s = false ∧
    step scale (Op.isButtonPressed name) s = some s := by
  have hinv := run_buttonState_names scale ops G29.new s (fun _ _ => rfl) hrun
  have key : ∀ n, n ∉ buttonNames → G29.isButtonPressed n s = false := by
    intro n hn
    simp [G29.isButtonPressed, hinv n hn]
  exact ⟨key name hname, key "" (by decide), key "x" (by decide),
    key "dpadup" (by decide), key "ps" (by decide), rfl⟩

/-- C20: on a 16-byte report, a label that is not empty is one of the 20
button names, and `isButtonPressed` of that name is true in the button state
the same call produced. -/
theorem label_names_pressed_button (raw : List Nat) (s : G29) (h : raw.length = 16) :
    ∃ lbl s', G29.updateButtonState raw s = some (lbl, s') ∧
      (lbl ≠ "" → lbl ∈ buttonNames ∧ G29.isButtonPressed lbl s' = true) := by
  obtain ⟨b0, b1, b2, b3, b4, b5, b6, b7, b8, b9, b10, b11, b12, b13, b14, b15, rfl⟩ :=
    bytes_of_length_16 raw h
  exact ⟨G29.pressedLabel b0 b1 b2 b3,
    { s with buttonState := G29.buttonFlags b0 b1 b2 b3 s.buttonState },
    updateButtonState_bytes b0 b1 b2 b3 b4 b5 b6 b7 b8 b9 b10 b11 b12 b13 b14 b15 s,
    pressedLabel_pressed b0 b1 b2 b3 s⟩

/-- Witness of C20 on the report `00 40 00 ... 00` (label `R3`) and the
constructed wrapper. -/
theorem label_names_pressed_button_witness :
    (0 :: 0x40 :: List.replicate 14 0).length = 16 ∧
    ∃ lbl s', G29.updateButtonState (0 :: 0x40 :: List.replicate 14 0) G29.new =
        some (lbl, s') ∧
      (lbl ≠ "" → lbl ∈ buttonNames ∧ G29.isButtonPressed lbl s' = true) :=
  ⟨by decide, label_names_pressed_button (0 :: 0x40 :: List.replicate 14 0) G29.new (by decide)⟩

/-- Witness of C19: after a readLoop that receives the report `18 05 ... 05`
and a `getPressedButton`, the name `Square ` with a trailing blank is not
pressed. -/
theorem isButtonPressed_unknown_name_witness :
    (run (fun _ => 0)
        [Op.readLoop [⟨0, ⟨16, 0x18 :: List.replicate 15 0x05⟩⟩], Op.getPressedButton]
        G29.new =
      some { cache := 0x18 :: List.replicate 15 0x05,
             state := [("steering", 0), ("throttle", 5), ("clutch", 5), ("brake", 5)],
             buttonState := G29.buttonFlags 0x18 5 5 5 [],
             written := [] } ∧
      "Square " ∉ buttonNames) ∧
    (G29.isButtonPressed "Square "
        { cache := 0x18 :: List.replicate 15 0x05,
          state := [("steering", 0), ("throttle", 5), ("clutch", 5), ("brake", 5)],
          buttonState := G29.buttonFlags 0x18 5 5 5 [],
          written := [] } = false ∧
    G29.isButtonPressed ""
        { cache := 0x18 :: List.replicate 15 0x05,
          state := [("steering", 0), ("throttle", 5), ("clutch", 5), ("brake", 5)],
          buttonState := G29.buttonFlags 0x18 5 5 5 [],
          written := [] } = false ∧
    G29.isButtonPressed "x"
        { cache := 0x18 :: List.replicate 15 0x05,
          state := [("steering", 0), ("throttle", 5), ("clutch", 5), ("brake", 5)],
          buttonState := G29.buttonFlags 0x18 5 5 5 [],
          written := [] } = false ∧
    G29.isButtonPressed "dpadup"
        { cache := 0x18 :: List.replicate 15 0x05,
          state := [("steering", 0), ("throttle", 5), ("clutch", 5), ("brake", 5)],
          buttonState := G29.buttonFlags 0x18 5 5 5 [],
          written := [] } = false ∧
    G29.isButtonPressed "ps"
        { cache := 0x18 :: List.replicate 15 0x05,
          state := [("steering", 0), ("throttle", 5), ("clutch", 5), ("brake", 5)],
          buttonState := G29.buttonFlags 0x18 5 5 5 [],
          written := [] } = false ∧
    step (fun _ => 0) (Op.isButtonPressed "Square ")
        { cache := 0x18 :: List.replicate 15 0x05,
          state := [("steering", 0), ("throttle", 5), ("clutch", 5), ("brake", 5)],
          buttonState := G29.buttonFlags 0x18 5 5 5 [],
          written := [] } =
      some { cache := 0x18 :: List.replicate 15 0x05,
             state := [("steering", 0), ("throttle", 5), ("clutch", 5), ("brake", 5)],
             buttonState := G29.buttonFlags 0x18 5 5 5 [],
             written := [] }) :=
  ⟨⟨by decide, by decide⟩,
    isButtonPressed_unknown_name (fun _ => 0)
      [Op.readLoop [⟨0, ⟨16, 0x18 :: List.replicate 15 0x05⟩⟩], Op.getPressedButton]
      _ "Square " (by decide) (by decide)⟩

/-! ## Auxiliary lemmas: bit patterns of byte 0 -/

/-- A mask below 256 only sees the low byte of its operand. -/
theorem land_mod_256 (b m : Nat) (hm : m < 256) : b &&& m = (b % 256) &&& m := by
  have h1 : m &&& (2 ^ 8 - 1) = m := Nat.and_pow_two_sub_one_of_lt_two_pow (by simpa using hm)
  have h2 : b &&& (2 ^ 8 - 1) = b % 2 ^ 8 := Nat.and_pow_two_sub_one_eq_mod b 8
  calc b &&& m = b &&& (m &&& (2 ^ 8 - 1)) := by rw [h1]
    _ = b &&& ((2 ^ 8 - 1) &&& m) := by rw [Nat.and_comm m]
    _ = (b &&& (2 ^ 8 - 1)) &&& m := by rw [Nat.and_assoc]
    _ = (b % 256) &&& m := by rw [h2]; norm_num

set_option maxRecDepth 100000 in
/-- On a byte value, the four D-pad tests exclude one another and each face
test excludes every D-pad test. -/
theorem dpad_face_byte : ∀ r < 256,
    (r &&& 0x0F = 0x00 → r &&& 0x0F ≠ 0x04 ∧ r &&& 0x0F ≠ 0x06 ∧ r &&& 0x0F ≠ 0x02) ∧
    (r &&& 0x0F = 0x04 → r &&& 0x0F ≠ 0x06 ∧ r &&& 0x0F ≠ 0x02) ∧
    (r &&& 0x0F = 0x06 → r &&& 0x0F ≠ 0x02) ∧
    ((r &&& 0x18 = 0x18 ∨ r &&& 0x28 = 0x28 ∨ r &&& 0x88 = 0x88 ∨ r &&& 0x48 = 0x48) →
      r &&& 0x0F ≠ 0x00 ∧ r &&& 0x0F ≠ 0x04 ∧ r &&& 0x0F ≠ 0x06 ∧ r &&& 0x0F ≠ 0x02) := by
  decide

/-- For any value of byte 0, the four D-pad tests exclude one another and each
face test excludes every D-pad test. -/
theorem dpad_face_tests (b0 : Nat) :
    (b0 &&& 0x0F = 0x00 → b0 &&& 0x0F ≠ 0x04 ∧ b0 &&& 0x0F ≠ 0x06 ∧ b0 &&& 0x0F ≠ 0x02) ∧
    (b0 &&& 0x0F = 0x04 → b0 &&& 0x0F ≠ 0x06 ∧ b0 &&& 0x0F ≠ 0x02) ∧
    (b0 &&& 0x0F = 0x06 → b0 &&& 0x0F ≠ 0x02) ∧
    ((b0 &&& 0x18 = 0x18 ∨ b0 &&& 0x28 = 0x28 ∨ b0 &&& 0x88 = 0x88 ∨ b0 &&& 0x48 = 0x48) →
      b0 &&& 0x0F ≠ 0x00 ∧ b0 &&& 0x0F ≠ 0x04 ∧ b0 &&& 0x0F ≠ 0x06 ∧
        b0 &&& 0x0F ≠ 0x02) := by
  have h := dpad_face_byte (b0 % 256) (Nat.mod_lt _ (by decide))
  rw [land_mod_256 b0 0x0F (by decide), land_mod_256 b0 0x18 (by decide),
    land_mod_256 b0 0x28 (by decide), land_mod_256 b0 0x88 (by decide),
    land_mod_256 b0 0x48 (by decide)]
  exact h

/-- C21: in the button state decoded from a 16-byte report at most one of the
four D-pad flags is true, and when a face-button flag (X, Square, Triangle,
Circle) is true no D-pad flag is true. -/
theorem dpad_exclusive (raw : List Nat) (s : G29) (h : raw.length = 16) :
    ∃ lbl s', G29.updateButtonState raw s = some (lbl, s') ∧
      (["DPadUp", "DPadDown", "DPadLeft", "DPadRight"].filter
        (fun name => G29.isButtonPressed name s')).length ≤ 1 ∧
      ((G29.isButtonPressed "X" s' = true ∨ G29.isButtonPressed "Square" s' = true ∨
          G29.isButtonPressed "Triangle" s' = true ∨
          G29.isButtonPressed "Circle" s' = true) →
        G29.isButtonPressed "DPadUp" s' = false ∧
        G29.isButtonPressed "DPadDown" s' = false ∧
        G29.isButtonPressed "DPadLeft" s' = false ∧
        G29.isButtonPressed "DPadRight" s' = false) := by
  obtain ⟨b0, b1, b2, b3, b4, b5, b6, b7, b8, b9, b10, b11, b12, b13, b14, b15, rfl⟩ :=
    bytes_of_length_16 raw h
  obtain ⟨fX, fSq, fTr, fCi, _, _, _, _, fU, fD, fL, fR, _⟩ :=
    isButtonPressed_buttonFlags b0 b1 b2 b3 s
  obtain ⟨hU, hD, hL, hF⟩ := dpad_face_tests b0
  refine ⟨G29.pressedLabel b0 b1 b2 b3,
    { s with buttonState := G29.buttonFlags b0 b1 b2 b3 s.buttonState },
    updateButtonState_bytes b0 b1 b2 b3 b4 b5 b6 b7 b8 b9 b10 b11 b12 b13 b14 b15 s, ?_, ?_⟩
  · simp only [List.filter, fU, fD, fL, fR]
    by_cases cU : b0 &&& 0x0F = 0x00
    · obtain ⟨n1, n2, n3⟩ := hU cU
      simp [cU, n1, n2, n3]
    · by_cases cD : b0 &&& 0x0F = 0x04
      · obtain ⟨n2, n3⟩ := hD cD
        simp [cU, cD, n2, n3]
      · by_cases cL : b0 &&& 0x0F = 0x06
        · have n3 := hL cL
          simp [cU, cD, cL, n3]
        · by_cases cR : b0 &&& 0x0F = 0x02 <;> simp [cU, cD, cL, cR]
  · rw [fX, fSq, fTr, fCi, fU, fD, fL, fR]
    intro hface
    simp only [decide_eq_true_eq] at hface
    obtain ⟨n0, n1, n2, n3⟩ := hF hface
    simp [n0, n1, n2, n3]

/-- Witness of C21 on the report `18 05 ... 05` (X held, D-pad at rest) and
the constructed wrapper. -/
theorem dpad_exclusive_witness :
    (0x18 :: List.replicate 15 0x05).length = 16 ∧
    ∃ lbl s', G29.updateButtonState (0x18 :: List.replicate 15 0x05) G29.new =
        some (lbl, s') ∧
      (["DPadUp", "DPadDown", "DPadLeft", "DPadRight"].filter
        (fun name => G29.isButtonPressed name s')).length ≤ 1 ∧
      ((G29.isButtonPressed "X" s' = true ∨ G29.isButtonPressed "Square" s' = true ∨
          G29.isButtonPressed "Triangle" s' = true ∨
          G29.isButtonPressed "Circle" s' = true) →
        G29.isButtonPressed "DPadUp" s' = false ∧
        G29.isButtonPressed "DPadDown" s' = false ∧
        G29.isButtonPressed "DPadLeft" s' = false ∧
        G29.isButtonPressed "DPadRight" s' = false) :=
  ⟨by decide, dpad_exclusive (0x18 :: List.replicate 15 0x05) G29.new (by decide)⟩

/-- C22: for bytes `a`, `b`, `calculateSteering a b` is 255 exactly for the
pairs (0, 0), (0, 255) and (255, 0), and it is 0 exactly when `a = b` and `a`
is not 0; so 255 is also returned off the at-rest pair, at (0, 255) and
(255, 0). -/
theorem calculateSteering_sentinel (a b : Nat) (ha : a < 256) (hb : b < 256) :
    (G29.calculateSteering a b = 255 ↔
      (a = 0 ∧ b = 0) ∨ (a = 0 ∧ b = 255) ∨ (a = 255 ∧ b = 0)) ∧
    (G29.calculateSteering a b = 0 ↔ a = b ∧ a ≠ 0) ∧
    G29.calculateSteering 0 255 = 255 ∧ G29.calculateSteering 255 0 = 255 := by
  refine ⟨?_, ?_, by decide, by decide⟩
  · unfold G29.calculateSteering toUInt8
    split_ifs with h1 h2
    · simp [h1]
    · constructor <;> intro h <;> omega
    · constructor <;> intro h <;> omega
  · unfold G29.calculateSteering toUInt8
    split_ifs with h1 h2
    · simp [h1]
    · constructor <;> intro h <;> omega
    · constructor <;> intro h <;> omega

/-- Witness of C22 at the bytes 0 and 255. -/
theorem calculateSteering_sentinel_witness :
    (0 < 256 ∧ 255 < 256) ∧
    (G29.calculateSteering 0 255 = 255 ↔
      (0 = 0 ∧ 255 = 0) ∨ (0 = 0 ∧ 255 = 255) ∨ (0 = 255 ∧ 255 = 0)) ∧
    (G29.calculateSteering 0 255 = 0 ↔ 0 = 255 ∧ 0 ≠ 0) ∧
    G29.calculateSteering 0 255 = 255 ∧ G29.calculateSteering 255 0 = 255 :=
  ⟨⟨by decide, by decide⟩, calculateSteering_sentinel 0 255 (by decide) (by decide)⟩

/-! ## Auxiliary lemmas: the binary32 scaling -/

theorem roundTiesEven_bounds (x : ℚ) : ⌊x⌋ ≤ roundTiesEven x ∧ roundTiesEven x ≤ ⌊x⌋ + 1 := by
  unfold roundTiesEven
  simp only
  split_ifs <;> constructor <;> omega

theorem roundTiesEven_intCast (n : Int) : roundTiesEven (n : ℚ) = n := by
  unfold roundTiesEven
  simp

theorem roundTiesEven_nonneg (x : ℚ) (hx : 0 ≤ x) : 0 ≤ roundTiesEven x :=
  le_trans (Int.floor_nonneg.mpr hx) (roundTiesEven_bounds x).1

theorem roundTiesEven_le (x : ℚ) (n : Int) (hx : x ≤ n) : roundTiesEven x ≤ n := by
  rcases lt_or_eq_of_le hx with hlt | heq
  · have h1 : ⌊x⌋ < n := Int.floor_lt.mpr hlt
    have h2 := (roundTiesEven_bounds x).2
    omega
  · rw [heq, roundTiesEven_intCast]

theorem log2_eq_of_bounds (x : ℚ) (k : Int) (hlo : (2 : ℚ) ^ k ≤ x) (hhi : x < (2 : ℚ) ^ (k + 1)) :
    Int.log 2 x = k := by
  have hpos : 0 < x := lt_of_lt_of_le (by positivity) hlo
  have h1 : k ≤ Int.log 2 x := (Int.zpow_le_iff_le_log (by norm_num) hpos).mp (by exact_mod_cast hlo)
  have h2 : Int.log 2 x < k + 1 := (Int.lt_zpow_iff_log_lt (by norm_num) hpos).mp (by exact_mod_cast hhi)
  omega

theorem roundBinary32_range (x : ℚ) (h0 : 0 ≤ x) (h1 : x ≤ 255) :
    0 ≤ roundBinary32 x ∧ roundBinary32 x ≤ 255 := by
  unfold roundBinary32
  by_cases hx : x = 0
  · simp [hx]
  · have hpos : 0 < x := lt_of_le_of_ne h0 (Ne.symm hx)
    simp only [hx, if_false, abs_of_pos hpos]
    have hlog : Int.log 2 x < 8 :=
      (Int.lt_zpow_iff_log_lt (by norm_num) hpos).mp (by norm_num; linarith)
    set e := max (Int.log 2 x) (-126) with he
    have he8 : e ≤ 7 := by omega
    have hq : (0 : ℚ) < 2 ^ (e - 23) := by positivity
    obtain ⟨m, hm⟩ : ∃ m : Nat, (23 : Int) - e = m := ⟨(23 - e).toNat, by omega⟩
    have hinv : ((2 : ℚ) ^ (e - 23))⁻¹ = ((2 ^ m : Int) : ℚ) := by
      rw [← zpow_neg, neg_sub, hm]
      push_cast
      rw [zpow_natCast]
    have hdiv : x / 2 ^ (e - 23) ≤ ((255 * 2 ^ m : Int) : ℚ) := by
      rw [div_eq_mul_inv, hinv]
      push_cast
      have : (0 : ℚ) ≤ 2 ^ m := by positivity
      nlinarith
    constructor
    · exact mul_nonneg (by exact_mod_cast roundTiesEven_nonneg _ (div_nonneg h0 hq.le)) hq.le
    · have hle := roundTiesEven_le _ _ hdiv
      have hle' : ((roundTiesEven (x / 2 ^ (e - 23)) : Int) : ℚ) ≤ ((255 * 2 ^ m : Int) : ℚ) := by
        exact_mod_cast hle
      calc ((roundTiesEven (x / 2 ^ (e - 23)) : Int) : ℚ) * 2 ^ (e - 23)
          ≤ ((255 * 2 ^ m : Int) : ℚ) * 2 ^ (e - 23) := mul_le_mul_of_nonneg_right hle' hq.le
        _ = 255 := by
          have hone : ((2 ^ m : Int) : ℚ) * 2 ^ (e - 23) = 1 := by
            rw [← hinv]
            exact inv_mul_cancel₀ hq.ne'
          rw [Int.cast_mul, mul_assoc, hone]
          norm_num

theorem roundBinary32_eval (x : ℚ) (k : Int) (hlo : (2 : ℚ) ^ k ≤ x)
    (hhi : x < (2 : ℚ) ^ (k + 1)) (hk : -126 ≤ k) :
    roundBinary32 x = roundTiesEven (x / 2 ^ (k - 23)) * 2 ^ (k - 23) := by
  have hpos : 0 < x := lt_of_lt_of_le (by positivity) hlo
  unfold roundBinary32
  simp only [hpos.ne', if_false, abs_of_pos hpos, log2_eq_of_bounds x k hlo hhi,
    max_eq_left hk]

theorem roundHalfAway_range (r : ℚ) (h0 : 0 ≤ r) (h1 : r ≤ 255) :
    0 ≤ roundHalfAway r ∧ roundHalfAway r ≤ 255 := by
  unfold roundHalfAway
  rw [if_pos h0]
  constructor
  · exact Int.floor_nonneg.mpr (by linarith)
  · have : ⌊r + 1 / 2⌋ < 256 := Int.floor_lt.mpr (by push_cast; linarith)
    omega

/-- On a value of the closed interval from 0 to 1 the scaling is defined: the
byte is `std::round` of the binary32 product and lies in `0..255`. -/
theorem scaleToByte_unit (q : ℚ) (h0 : 0 ≤ q) (h1 : q ≤ 1) :
    scaleToByte? (F32.finite q) =
      some (roundHalfAway (roundBinary32 (q * 255))).toNat ∧
    scaleToByte (F32.finite q) = (roundHalfAway (roundBinary32 (q * 255))).toNat ∧
    0 ≤ roundHalfAway (roundBinary32 (q * 255)) ∧
    roundHalfAway (roundBinary32 (q * 255)) ≤ 255 := by
  have hx0 : 0 ≤ q * 255 := by positivity
  have hx1 : q * 255 ≤ 255 := by linarith
  obtain ⟨hr0, hr1⟩ := roundBinary32_range (q * 255) hx0 hx1
  obtain ⟨hn0, hn1⟩ := roundHalfAway_range _ hr0 hr1
  have hbig : ¬ (2 : ℚ) ^ 128 ≤ roundBinary32 (q * 255) := by
    have : (255 : ℚ) < 2 ^ 128 := by norm_num
    linarith
  have hsmall : ¬ roundBinary32 (q * 255) ≤ -(2 : ℚ) ^ 128 := by
    have : -(2 : ℚ) ^ 128 < 0 := by norm_num
    linarith
  have hs : scaleToByte? (F32.finite q) =
      some (roundHalfAway (roundBinary32 (q * 255))).toNat := by
    have hc : (0 : ℚ) ≤ ((roundHalfAway (roundBinary32 (q * 255)) : Int) : ℚ) := by
      exact_mod_cast hn0
    simp only [scaleToByte?, F32.mul255, hbig, hsmall, if_false, F32.round, F32.toUInt8?,
      hc, if_true, Int.floor_intCast, hn0, hn1, and_self]
  exact ⟨hs, by rw [scaleToByte, hs]; rfl, hn0, hn1⟩

theorem roundBinary32_255 : roundBinary32 (1 * 255) = 255 := by
  rw [roundBinary32_eval _ 7 (by norm_num) (by norm_num) (by norm_num)]
  unfold roundTiesEven
  norm_num

theorem roundBinary32_half : roundBinary32 (1 / 2 * 255) = 255 / 2 := by
  rw [roundBinary32_eval _ 6 (by norm_num) (by norm_num) (by norm_num)]
  unfold roundTiesEven
  norm_num

/-- The product of the binary32 number `0x1.020202p-1` with 255 lies just
below `128.5` and rounds to the binary32 number `128.5`. -/
theorem roundBinary32_near_tie : roundBinary32 (8454401 / 16777216 * 255) = 257 / 2 := by
  rw [roundBinary32_eval _ 7 (by norm_num) (by norm_num) (by norm_num)]
  unfold roundTiesEven
  norm_num

theorem scaleToByte_near_tie : scaleToByte (F32.finite (8454401 / 16777216)) = 129 := by
  rw [(scaleToByte_unit _ (by norm_num) (by norm_num)).2.1, roundBinary32_near_tie]
  unfold roundHalfAway
  norm_num
  rfl

theorem scaleToByte_half : scaleToByte (F32.finite (1 / 2)) = 128 := by
  rw [(scaleToByte_unit _ (by norm_num) (by norm_num)).2.1, roundBinary32_half]
  unfold roundHalfAway
  norm_num
  rfl

theorem scaleToByte_zero : scaleToByte (F32.finite 0) = 0 := by
  rw [(scaleToByte_unit _ (by norm_num) (by norm_num)).2.1]
  simp only [zero_mul, roundBinary32, if_true, roundHalfAway]
  norm_num

theorem scaleToByte_one : scaleToByte (F32.finite 1) = 255 := by
  rw [(scaleToByte_unit _ (by norm_num) (by norm_num)).2.1, roundBinary32_255]
  unfold roundHalfAway
  norm_num
  rfl

/-! ## Theorems: the scaled bytes of the command frames -/

/-- C9 as stated fails on the exact product: `val = 0x1.020202p-1` is a
binary32 number of the closed interval from 0 to 1 whose exact product with
255 rounds (half away from zero) to 128, while `forceFeedbackConstant` writes
the byte 129, the rounding of the binary32 product `128.5`. -/
theorem forceFeedbackConstant_exact_round_differs :
    F32.InUnit (F32.finite (8454401 / 16777216)) ∧
    roundBinary32 (8454401 / 16777216) = 8454401 / 16777216 ∧
    roundHalfAway (8454401 / 16777216 * 255) = 128 ∧
    G29.forceFeedbackConstant scaleToByte (F32.finite (8454401 / 16777216)) G29.new =
      (Except.ok (), G29.hid_write [0x14, 0x00, 129, 0x00, 0x00, 0x00, 0x00] G29.new) := by
  refine ⟨⟨_, rfl, by norm_num, by norm_num⟩, ?_, ?_, ?_⟩
  · rw [roundBinary32_eval _ (-1) (by norm_num) (by norm_num) (by norm_num)]
    unfold roundTiesEven
    norm_num
  · unfold roundHalfAway
    norm_num
  · rw [(forceFeedbackConstant_finite scaleToByte _ G29.new).2 ⟨by norm_num, by norm_num⟩,
      scaleToByte_near_tie]

/-- C9, amended: for every `val` of the closed interval from 0 to 1,
`forceFeedbackConstant` writes exactly one frame of 7 bytes
`14 00 s 00 00 00 00`, where `s` is `std::round` (half away from zero) of the
binary32 product of `val` and 255; the conversion to `uint8_t` is defined and
`s` lies in `0..255`; `val = 0` gives `00` and `val = 1` gives `FF`. -/
theorem forceFeedbackConstant_frame (q : ℚ) (s : G29) (h0 : 0 ≤ q) (h1 : q ≤ 1) :
    ∃ b : Nat,
      scaleToByte? (F32.finite q) = some b ∧
      (b : Int) = roundHalfAway (roundBinary32 (q * 255)) ∧
      b ≤ 255 ∧
      G29.forceFeedbackConstant scaleToByte (F32.finite q) s =
        (Except.ok (), G29.hid_write [0x14, 0x00, b, 0x00, 0x00, 0x00, 0x00] s) ∧
      (G29.forceFeedbackConstant scaleToByte (F32.finite q) s).2.written =
        s.written ++ [[0x14, 0x00, b, 0x00, 0x00, 0x00, 0x00]] ∧
      [0x14, 0x00, b, 0x00, 0x00, 0x00, 0x00].length = 7 ∧
      (q = 0 → b = 0) ∧ (q = 1 → b = 255) := by
  obtain ⟨hs, hb, hn0, hn1⟩ := scaleToByte_unit q h0 h1
  have hf := (forceFeedbackConstant_finite scaleToByte q s).2 ⟨h0, h1⟩
  refine ⟨(roundHalfAway (roundBinary32 (q * 255))).toNat, hs, Int.toNat_of_nonneg hn0,
    by omega, ?_, ?_, rfl, ?_, ?_⟩
  · rw [hf, hb]
  · rw [hf, hb]
    rfl
  · intro hq
    rw [← hb, hq, scaleToByte_zero]
  · intro hq
    rw [← hb, hq, scaleToByte_one]

/-- Witness of the amended C9 at `val = 0.5` on the constructed wrapper. -/
theorem forceFeedbackConstant_frame_witness :
    ((0 : ℚ) ≤ 1 / 2 ∧ (1 / 2 : ℚ) ≤ 1) ∧
    ∃ b : Nat,
      scaleToByte? (F32.finite (1 / 2)) = some b ∧
      (b : Int) = roundHalfAway (roundBinary32 (1 / 2 * 255)) ∧
      b ≤ 255 ∧
      G29.forceFeedbackConstant scaleToByte (F32.finite (1 / 2)) G29.new =
        (Except.ok (), G29.hid_write [0x14, 0x00, b, 0x00, 0x00, 0x00, 0x00] G29.new) ∧
      (G29.forceFeedbackConstant scaleToByte (F32.finite (1 / 2)) G29.new).2.written =
        G29.new.written ++ [[0x14, 0x00, b, 0x00, 0x00, 0x00, 0x00]] ∧
      [0x14, 0x00, b, 0x00, 0x00, 0x00, 0x00].length = 7 ∧
      ((1 / 2 : ℚ) = 0 → b = 0) ∧ ((1 / 2 : ℚ) = 1 → b = 255) :=
  ⟨⟨by norm_num, by norm_num⟩,
    forceFeedbackConstant_frame (1 / 2) G29.new (by norm_num) (by norm_num)⟩

/-- C11 as stated fails on the exact product: with the binary32 strength
`0x1.020202p-1` and the rate `0.5`, both in the closed interval from 0 to 1,
`setAutocenter` writes byte 2 as 129 although the exact product of the
strength with 255 rounds to 128. -/
theorem setAutocenter_exact_round_differs :
    F32.InUnit (F32.finite (8454401 / 16777216)) ∧ F32.InUnit (F32.finite (1 / 2)) ∧
    roundBinary32 (8454401 / 16777216) = 8454401 / 16777216 ∧
    roundHalfAway (8454401 / 16777216 * 255) = 128 ∧
    G29.setAutocenter scaleToByte (F32.finite (8454401 / 16777216)) (F32.finite (1 / 2))
        G29.new =
      (Except.ok (), G29.hid_write [0x05, 0x00, 129, 128, 0x00, 0x00, 0x00] G29.new) := by
  refine ⟨⟨_, rfl, by norm_num, by norm_num⟩, ⟨_, rfl, by norm_num, by norm_num⟩, ?_, ?_, ?_⟩
  · rw [roundBinary32_eval _ (-1) (by norm_num) (by norm_num) (by norm_num)]
    unfold roundTiesEven
    norm_num
  · unfold roundHalfAway
    norm_num
  · rw [(setAutocenter_finite scaleToByte _ _ G29.new).2.2 ⟨by norm_num, by norm_num⟩
      ⟨by norm_num, by norm_num⟩, scaleToByte_near_tie, scaleToByte_half]

/-- C11, amended: for every strength and rate of the closed interval from 0
to 1, `setAutocenter` writes exactly one frame of 7 bytes
`05 00 a b 00 00 00`, where `a` is `std::round` of the binary32 product of
the strength and 255 and `b` that of the rate and 255: byte 2 is a function of
the strength alone, byte 3 of the rate alone, each conversion to `uint8_t` is
defined and each byte lies in `0..255`. -/
theorem setAutocenter_frame (p q : ℚ) (s : G29) (hp0 : 0 ≤ p) (hp1 : p ≤ 1)
    (hq0 : 0 ≤ q) (hq1 : q ≤ 1) :
    G29.setAutocenter scaleToByte (F32.finite p) (F32.finite q) s =
      (Except.ok (), G29.hid_write
        [0x05, 0x00, scaleToByte (F32.finite p), scaleToByte (F32.finite q),
          0x00, 0x00, 0x00] s) ∧
    (G29.setAutocenter scaleToByte (F32.finite p) (F32.finite q) s).2.written =
      s.written ++ [[0x05, 0x00, scaleToByte (F32.finite p), scaleToByte (F32.finite q),
        0x00, 0x00, 0x00]] ∧
    [0x05, 0x00, scaleToByte (F32.finite p), scaleToByte (F32.finite q),
      0x00, 0x00, 0x00].length = 7 ∧
    scaleToByte? (F32.finite p) = some (scaleToByte (F32.finite p)) ∧
    scaleToByte? (F32.finite q) = some (scaleToByte (F32.finite q)) ∧
    (scaleToByte (F32.finite p) : Int) = roundHalfAway (roundBinary32 (p * 255)) ∧
    (scaleToByte (F32.finite q) : Int) = roundHalfAway (roundBinary32 (q * 255)) ∧
    scaleToByte (F32.finite p) ≤ 255 ∧ scaleToByte (F32.finite q) ≤ 255 := by
  obtain ⟨hsp, hbp, hp0', hp1'⟩ := scaleToByte_unit p hp0 hp1
  obtain ⟨hsq, hbq, hq0', hq1'⟩ := scaleToByte_unit q hq0 hq1
  have hf := (setAutocenter_finite scaleToByte p q s).2.2 ⟨hp0, hp1⟩ ⟨hq0, hq1⟩
  refine ⟨hf, ?_, rfl, ?_, ?_, ?_, ?_, ?_, ?_⟩
  · rw [hf]
    rfl
  · rw [hsp, hbp]
  · rw [hsq, hbq]
  · rw [hbp]
    exact Int.toNat_of_nonneg hp0'
  · rw [hbq]
    exact Int.toNat_of_nonneg hq0'
  · rw [hbp]
    omega
  · rw [hbq]
    omega

/-- Witness of the amended C11 at strength 1 and rate `0.5` on the constructed
wrapper. -/
theorem setAutocenter_frame_witness :
    ((0 : ℚ) ≤ 1 ∧ (1 : ℚ) ≤ 1 ∧ (0 : ℚ) ≤ 1 / 2 ∧ (1 / 2 : ℚ) ≤ 1) ∧
    (G29.setAutocenter scaleToByte (F32.finite 1) (F32.finite (1 / 2)) G29.new =
      (Except.ok (), G29.hid_write
        [0x05, 0x00, scaleToByte (F32.finite 1), scaleToByte (F32.finite (1 / 2)),
          0x00, 0x00, 0x00] G29.new) ∧
    (G29.setAutocenter scaleToByte (F32.finite 1) (F32.finite (1 / 2)) G29.new).2.written =
      G29.new.written ++ [[0x05, 0x00, scaleToByte (F32.finite 1),
        scaleToByte (F32.finite (1 / 2)), 0x00, 0x00, 0x00]] ∧
    [0x05, 0x00, scaleToByte (F32.finite 1), scaleToByte (F32.finite (1 / 2)),
      0x00, 0x00, 0x00].length = 7 ∧
    scaleToByte? (F32.finite 1) = some (scaleToByte (F32.finite 1)) ∧
    scaleToByte? (F32.finite (1 / 2)) = some (scaleToByte (F32.finite (1 / 2))) ∧
    (scaleToByte (F32.finite 1) : Int) = roundHalfAway (roundBinary32 (1 * 255)) ∧
    (scaleToByte (F32.finite (1 / 2)) : Int) = roundHalfAway (roundBinary32 (1 / 2 * 255)) ∧
    scaleToByte (F32.finite 1) ≤ 255 ∧ scaleToByte (F32.finite (1 / 2)) ≤ 255) :=
  ⟨⟨by norm_num, by norm_num, by norm_num, by norm_num⟩,
    setAutocenter_frame 1 (1 / 2) G29.new (by norm_num) (by norm_num) (by norm_num)
      (by norm_num)⟩

/-! ## Auxiliary lemmas: the decode against the specification -/

theorem calculateSteering_eq_specSteering (a b : Nat) (ha : a < 256) (hb : b < 256) :
    G29.calculateSteering a b = specSteering a b := by
  unfold G29.calculateSteering specSteering toUInt8
  split_ifs <;> omega

/-- A flag map written by the 20 assignments answers every row of the table
of the specification with the test of that row. -/
theorem specFlag_of_buttonFlags
    (b0 b1 b2 b3 b4 b5 b6 b7 b8 b9 b10 b11 b12 b13 b14 b15 : Nat) (t : G29)
    (bs : UMap Bool) (ht : t.buttonState = G29.buttonFlags b0 b1 b2 b3 bs) :
    ∀ row ∈ specButtonTable, G29.isButtonPressed row.1 t =
      specFlag [b0, b1, b2, b3, b4, b5, b6, b7, b8, b9, b10, b11, b12, b13, b14, b15]
        row := by
  intro row hrow
  simp only [specButtonTable, List.mem_cons, List.mem_singleton, List.not_mem_nil,
    or_false] at hrow
  rcases hrow with rfl | rfl | rfl | rfl | rfl | rfl | rfl | rfl | rfl | rfl | rfl | rfl |
    rfl | rfl | rfl | rfl | rfl | rfl | rfl | rfl <;>
  simp [G29.isButtonPressed, ht, G29.buttonFlags, UMap.find_assign, specFlag]

theorem storeRead_bytes (r : HidRead) (cache : List Nat)
    (hr : ∀ b ∈ r.data, b < 256) (hc : ∀ b ∈ cache, b < 256) :
    ∀ b ∈ G29.storeRead r cache, b < 256 := by
  intro b hb
  have h1 := List.mem_of_mem_take hb
  rcases List.mem_append.mp h1 with h2 | h2
  · exact hr b h2
  · exact hc b (List.mem_of_mem_drop h2)

theorem pumpLoop_bytes (timeout : Int) (polls : List Poll) (n : Nat) (s : G29)
    (hp : ∀ p ∈ polls, ∀ b ∈ p.read.data, b < 256) (hc : ∀ b ∈ s.cache, b < 256) :
    ∀ b ∈ (G29.pumpLoop timeout polls n s).2.cache, b < 256 := by
  induction polls generalizing n s with
  | nil => simpa [G29.pumpLoop] using hc
  | cons p rest ih =>
    have hp0 := hp p (List.mem_cons_self _ _)
    have hrest : ∀ q ∈ rest, ∀ b ∈ q.read.data, b < 256 :=
      fun q hq => hp q (List.mem_cons_of_mem _ hq)
    have hst := storeRead_bytes p.read s.cache hp0 hc
    simp only [G29.pumpLoop]
    split_ifs with h1 h2
    · exact hst
    · exact ih (toSizeT p.read.ret) { s with cache := G29.storeRead p.read s.cache } hrest hst
    · exact hc

theorem polls_bytes_of_all (polls : List Poll)
    (h : polls.all (fun p => p.read.data.all (fun b => decide (b < 256))) = true) :
    ∀ p ∈ polls, ∀ b ∈ p.read.data, b < 256 := by
  intro p hp b hb
  have h1 := List.all_eq_true.mp h p hp
  have h2 := List.all_eq_true.mp h1 b hb
  simpa using h2

/-- The full decode of 16 bytes leaves axis values and button flags that are
the decode of those bytes in the words of the specification. -/
theorem updateState_bytes_decodeOf
    (b0 b1 b2 b3 b4 b5 b6 b7 b8 b9 b10 b11 b12 b13 b14 b15 : Nat) (s t : G29)
    (h4 : b4 < 256) (h5 : b5 < 256)
    (ht : G29.updateState
      [b0, b1, b2, b3, b4, b5, b6, b7, b8, b9, b10, b11, b12, b13, b14, b15] s = some t) :
    DecodeOf [b0, b1, b2, b3, b4, b5, b6, b7, b8, b9, b10, b11, b12, b13, b14, b15] t := by
  rw [updateState_bytes] at ht
  have hs' := Option.some.inj ht
  have hst : t.state = (((s.state.assign "steering" (G29.calculateSteering b4 b5)).assign
      "throttle" b6).assign "clutch" b8).assign "brake" b7 := by rw [← hs']
  have hbt : t.buttonState = G29.buttonFlags b0 b1 b2 b3 s.buttonState := by rw [← hs']
  refine ⟨rfl, ⟨b4, b5, rfl, rfl, ?_⟩, ?_, ?_, ?_, ?_⟩
  · rw [G29.getState, hst, ← calculateSteering_eq_specSteering b4 b5 h4 h5]
    simp [UMap.find_assign]
  · rw [G29.getState, hst]
    simp [UMap.find_assign]
  · rw [G29.getState, hst]
    simp [UMap.find_assign]
  · rw [G29.getState, hst]
    simp [UMap.find_assign]
  · exact specFlag_of_buttonFlags b0 b1 b2 b3 b4 b5 b6 b7 b8 b9 b10 b11 b12 b13 b14 b15 t
      s.buttonState hbt

/-! ## Theorems: axes and buttons of one report -/

/-- C13 as stated fails: on the constructed wrapper the public method
`getPressedButton` rewrites the button flags from the cache (`DPadUp` becomes
pressed) and leaves the axis values at their construction defaults, which are
not the decode of those cache bytes (the specification decodes `raw[6] = 0` to
throttle 0, the wrapper still answers 255): the call did not update axes and
buttons together. -/
theorem getPressedButton_updates_buttons_only :
    Op.getPressedButton.isPublic = true ∧
    ∃ s', step scaleToByte Op.getPressedButton G29.new = some s' ∧
      ¬ StepTogether G29.new s' ∧
      s'.state = G29.new.state ∧
      s'.cache = List.replicate 16 0 ∧
      G29.isButtonPressed "DPadUp" G29.new = false ∧
      G29.isButtonPressed "DPadUp" s' = true ∧
      UMap.find (G29.getState s') "throttle" = some 255 ∧
      s'.cache[6]? = some 0 := by
  refine ⟨rfl, { G29.new with buttonState := G29.buttonFlags 0 0 0 0 [] }, by decide, ?_,
    rfl, rfl, by decide, by decide, by decide, by decide⟩
  rintro (⟨_, hb⟩ | ⟨_, _, ht, _⟩)
  · exact absurd hb (by decide)
  · exact absurd ht (by decide)

/-- C13, amended: from a wrapper whose cache holds 16 bytes, every public call
that is handed bytes by the transport keeps 16 bytes in the cache and updates
axes and buttons together (it leaves both maps as they were, or both are
afterwards the decode, in the words of the specification, of the bytes in the
cache), with one exception: `getPressedButton` keeps the axis values and the
cache and sets the 20 button flags to the table tests on the cache bytes. -/
theorem public_step_together (scale : F32 → Nat) (op : Op) (s s' : G29)
    (hpub : op.isPublic = true) (hop : op.bytesOk = true)
    (hcache : s.cache.length = 16) (hbytes : ∀ b ∈ s.cache, b < 256)
    (hstep : step scale op s = some s') :
    s'.cache.length = 16 ∧ (∀ b ∈ s'.cache, b < 256) ∧
    (StepTogether s s' ∨
      (op = Op.getPressedButton ∧ s'.state = s.state ∧ s'.cache = s.cache ∧
        ∀ row ∈ specButtonTable, G29.isButtonPressed row.1 s' = specFlag s.cache row)) := by
  cases op with
  | connect polls =>
    simp only [step, Option.some.injEq] at hstep
    subst hstep
    have hf := pumpLoop_frame 10 polls 0 s
    exact ⟨hf.2.2.2.trans hcache,
      pumpLoop_bytes 10 polls 0 s (polls_bytes_of_all polls hop) hbytes,
      Or.inl (Or.inl ⟨hf.1, hf.2.1⟩)⟩
  | reset =>
    simp only [step, Option.some.injEq] at hstep
    subst hstep
    exact ⟨hcache, hbytes, Or.inl (Or.inl ⟨rfl, rfl⟩)⟩
  | forceFeedbackConstant val =>
    simp only [step, Option.some.injEq] at hstep
    subst hstep
    unfold G29.forceFeedbackConstant
    split_ifs
    · exact ⟨hcache, hbytes, Or.inl (Or.inl ⟨rfl, rfl⟩)⟩
    · exact ⟨hcache, hbytes, Or.inl (Or.inl ⟨rfl, rfl⟩)⟩
  | setAutocenter strength rate =>
    simp only [step, Option.some.injEq] at hstep
    subst hstep
    unfold G29.setAutocenter
    split_ifs
    · exact ⟨hcache, hbytes, Or.inl (Or.inl ⟨rfl, rfl⟩)⟩
    · exact ⟨hcache, hbytes, Or.inl (Or.inl ⟨rfl, rfl⟩)⟩
    · exact ⟨hcache, hbytes, Or.inl (Or.inl ⟨rfl, rfl⟩)⟩
  | forceOff =>
    simp only [step, Option.some.injEq] at hstep
    subst hstep
    exact ⟨hcache, hbytes, Or.inl (Or.inl ⟨rfl, rfl⟩)⟩
  | pump timeout polls =>
    simp only [step, Option.some.injEq] at hstep
    subst hstep
    have hf := pumpLoop_frame timeout polls 0 s
    exact ⟨hf.2.2.2.trans hcache,
      pumpLoop_bytes timeout polls 0 s (polls_bytes_of_all polls hop) hbytes,
      Or.inl (Or.inl ⟨hf.1, hf.2.1⟩)⟩
  | readLoop polls =>
    simp only [step, G29.readLoop] at hstep
    have hf : (G29.pump 1 polls s).2.state = s.state ∧
        (G29.pump 1 polls s).2.buttonState = s.buttonState ∧
        (G29.pump 1 polls s).2.written = s.written ∧
        (G29.pump 1 polls s).2.cache.length = s.cache.length := pumpLoop_frame 1 polls 0 s
    have hlen : (G29.pump 1 polls s).2.cache.length = 16 := hf.2.2.2.trans hcache
    have hb1 : ∀ b ∈ (G29.pump 1 polls s).2.cache, b < 256 :=
      pumpLoop_bytes 1 polls 0 s (polls_bytes_of_all polls hop) hbytes
    split_ifs at hstep
    · obtain ⟨b0, b1, b2, b3, b4, b5, b6, b7, b8, b9, b10, b11, b12, b13, b14, b15, hc⟩ :=
        bytes_of_length_16 _ hlen
      rw [hc] at hstep hb1
      have h4 : b4 < 256 := hb1 b4 (by simp)
      have h5 : b5 < 256 := hb1 b5 (by simp)
      have hdec := updateState_bytes_decodeOf b0 b1 b2 b3 b4 b5 b6 b7 b8 b9 b10 b11 b12 b13
        b14 b15 _ s' h4 h5 hstep
      obtain ⟨s1, h1, hc1, _, _⟩ :=
        updateState_bytes_idem b0 b1 b2 b3 b4 b5 b6 b7 b8 b9 b10 b11 b12 b13 b14 b15
          (G29.pump 1 polls s).2
      rw [h1] at hstep
      have hs' := Option.some.inj hstep
      have hcs : s'.cache =
          [b0, b1, b2, b3, b4, b5, b6, b7, b8, b9, b10, b11, b12, b13, b14, b15] := by
        rw [← hs', hc1, hc]
      refine ⟨by rw [hcs]; rfl, by rw [hcs]; exact hb1, Or.inl (Or.inr ?_)⟩
      unfold BothFromCache
      rw [hcs]
      exact hdec
    · have hs' := Option.some.inj hstep
      subst hs'
      exact ⟨hlen, hb1, Or.inl (Or.inl ⟨hf.1, hf.2.1⟩)⟩
  | getState =>
    simp only [step, Option.some.injEq] at hstep
    subst hstep
    exact ⟨hcache, hbytes, Or.inl (Or.inl ⟨rfl, rfl⟩)⟩
  | isButtonPressed button =>
    simp only [step, Option.some.injEq] at hstep
    subst hstep
    exact ⟨hcache, hbytes, Or.inl (Or.inl ⟨rfl, rfl⟩)⟩
  | getPressedButton =>
    simp only [step, G29.getPressedButton] at hstep
    obtain ⟨b0, b1, b2, b3, b4, b5, b6, b7, b8, b9, b10, b11, b12, b13, b14, b15, hc⟩ :=
      bytes_of_length_16 _ hcache
    rw [hc, updateButtonState_bytes] at hstep
    simp only [Option.map_some', Option.some.injEq] at hstep
    have h1 : s'.cache = s.cache := by rw [← hstep]
    have h2 : s'.state = s.state := by rw [← hstep]
    have h3 : s'.buttonState = G29.buttonFlags b0 b1 b2 b3 s.buttonState := by
      rw [← hstep]
    refine ⟨by rw [h1]; exact hcache, by rw [h1]; exact hbytes, Or.inr ⟨rfl, h2, h1, ?_⟩⟩
    rw [hc]
    exact specFlag_of_buttonFlags b0 b1 b2 b3 b4 b5 b6 b7 b8 b9 b10 b11 b12 b13 b14 b15 s'
      s.buttonState h3
  | updateState raw => simp [Op.isPublic] at hpub
  | updateButtonState raw => simp [Op.isPublic] at hpub

/-- Witness of the amended C13: a `readLoop` that receives the report
`18 05 ... 05` on the constructed wrapper. -/
theorem public_step_together_witness :
    ((Op.readLoop [⟨0, ⟨16, 0x18 :: List.replicate 15 0x05⟩⟩]).isPublic = true ∧
      (Op.readLoop [⟨0, ⟨16, 0x18 :: List.replicate 15 0x05⟩⟩]).bytesOk = true ∧
      G29.new.cache.length = 16 ∧ (∀ b ∈ G29.new.cache, b < 256) ∧
      step scaleToByte (Op.readLoop [⟨0, ⟨16, 0x18 :: List.replicate 15 0x05⟩⟩]) G29.new =
        some (G29.mk (0x18 :: List.replicate 15 0x05)
          [("steering", 0), ("throttle", 5), ("clutch", 5), ("brake", 5)]
          (G29.buttonFlags 0x18 5 5 5 []) [])) ∧
    ((G29.mk (0x18 :: List.replicate 15 0x05)
          [("steering", 0), ("throttle", 5), ("clutch", 5), ("brake", 5)]
          (G29.buttonFlags 0x18 5 5 5 []) []).cache.length = 16 ∧
    (∀ b ∈ (G29.mk (0x18 :: List.replicate 15 0x05)
          [("steering", 0), ("throttle", 5), ("clutch", 5), ("brake", 5)]
          (G29.buttonFlags 0x18 5 5 5 []) []).cache, b < 256) ∧
    (StepTogether G29.new (G29.mk (0x18 :: List.replicate 15 0x05)
          [("steering", 0), ("throttle", 5), ("clutch", 5), ("brake", 5)]
          (G29.buttonFlags 0x18 5 5 5 []) []) ∨
      (Op.readLoop [⟨0, ⟨16, 0x18 :: List.replicate 15 0x05⟩⟩] = Op.getPressedButton ∧
        (G29.mk (0x18 :: List.replicate 15 0x05)
          [("steering", 0), ("throttle", 5), ("clutch", 5), ("brake", 5)]
          (G29.buttonFlags 0x18 5 5 5 []) []).state = G29.new.state ∧
        (G29.mk (0x18 :: List.replicate 15 0x05)
          [("steering", 0), ("throttle", 5), ("clutch", 5), ("brake", 5)]
          (G29.buttonFlags 0x18 5 5 5 []) []).cache = G29.new.cache ∧
        ∀ row ∈ specButtonTable, G29.isButtonPressed row.1 (G29.mk (0x18 :: List.replicate 15 0x05)
          [("steering", 0), ("throttle", 5), ("clutch", 5), ("brake", 5)]
          (G29.buttonFlags 0x18 5 5 5 []) []) =
          specFlag G29.new.cache row))) :=
  ⟨⟨rfl, by decide, by decide, by decide, by decide⟩,
    public_step_together scaleToByte
      (Op.readLoop [⟨0, ⟨16, 0x18 :: List.replicate 15 0x05⟩⟩]) G29.new _
      rfl (by decide) (by decide) (by decide) (by decide)⟩

end G29Model
